import Mathlib

/-!
Verification model of the Windows host windowing subsystem of this
repository: the window controller (event buffering and forwarding to the
embedding callback), the host window constructor (precondition checks and
size bound handling), the runtime ownership bookkeeping of the window tree
(destroy notifications and cascading popup close), and the popup placement
solver.

Shallow embedding conventions:
  - native window handles, child content handles and view identifiers are
    natural numbers;
  - C++ double values that the embedded code only compares, tests for
    infinity, or scales by the DPI factor are modelled by the type Dbl
    (a rational number or positive infinity); no floating point rounding
    is involved on any modelled path;
  - the WM_CLOSE request that CloseOwnedPopups posts for each popup is
    modelled faithfully as asynchronous: PostMessage only appends the
    close request to the thread message queue, so the close loop changes
    no window state beyond the unlink phase and the flag writes, and the
    queued requests take effect only when the message pump later
    dispatches each of them through the default close-then-destroy path
    (pumpPostedCloses);
  - native calls with no effect on the modelled state (SetWindowPos,
    MoveWindow, repaints, theme updates, DPI queries) are identities.
-/

namespace HostWindowing

/-- Archetype of a host window, from WindowArchetype in the source:
kRegular or kPopup. -/
inductive WindowArchetype where
  | regular
  | popup
deriving DecidableEq, Repr

/-- Window state enum, from WindowState in the source: kRestored,
kMaximized, kMinimized. -/
inductive WindowState where
  | restored
  | maximized
  | minimized
deriving DecidableEq, Repr

/-- Model of a C++ double on the paths the embedded code exercises: a
finite rational value or positive infinity. The constructor only
compares these values, tests them with std::isinf and multiplies them by
the finite positive DPI scale factor, and each of these operations on
Dbl agrees exactly with IEEE arithmetic on the corresponding values. -/
inductive Dbl where
  | fin (val : ℚ)
  | inf
deriving DecidableEq, Repr

/-- Test for infinity, modelling std::isinf on nonnegative sizes. -/
def Dbl.isInf : Dbl → Bool
  | .inf => true
  | .fin _ => false

/-- Strict greater-than on doubles, as used by the size constraint
validation; an infinite left operand is greater than any finite right
operand, and no value is greater than infinity. -/
def dblGt : Dbl → Dbl → Bool
  | .fin a, .fin b => decide (b < a)
  | .inf, .fin _ => true
  | .fin _, .inf => false
  | .inf, .inf => false

/-- Multiplication by the finite DPI scale factor. -/
def Dbl.scale (s : ℚ) : Dbl → Dbl
  | .fin q => .fin (q * s)
  | .inf => .inf

/-- A width and height pair of double values, modelling flutter::Size in
logical coordinates. -/
structure DSize where
  width : Dbl
  height : Dbl
deriving DecidableEq, Repr

/-- Scale both components of a size by the DPI factor, as in the
physical size computation of the constructor. -/
def scaleDSize (s : ℚ) (d : DSize) : DSize :=
  ⟨d.width.scale s, d.height.scale s⟩

/-- True when either component of the size is infinite. -/
def hasInfComponent (d : DSize) : Bool :=
  d.width.isInf || d.height.isInf

/- ### Placement solver types (integer screen space) -/

/-- Rectangle in integer screen space coordinates, edges inclusive on
the left and top and exclusive on the right and bottom. -/
structure IRect where
  left : Int
  top : Int
  right : Int
  bottom : Int
deriving DecidableEq, Repr

/-- Frame size in integer screen space coordinates. -/
structure ISize where
  w : Int
  h : Int
deriving DecidableEq, Repr

/-- Per axis gravity: the low edge (left or top), the center, or the
high edge (right or bottom) of a rectangle. -/
inductive AxisGravity where
  | low
  | center
  | high
deriving DecidableEq, Repr

/-- Positioner for a dependent (popup) window: optional anchor rectangle
in the logical space of the owner, per axis anchor edge gravity and popup
edge gravity, and a screen space offset. The constraint adjustment policy
is the fixed flip, slide, resize precedence of the specification. -/
structure WindowPositioner where
  anchorRect : Option IRect := none
  anchorGravityX : AxisGravity := .center
  anchorGravityY : AxisGravity := .center
  popupGravityX : AxisGravity := .center
  popupGravityY : AxisGravity := .center
  offsetX : Int := 0
  offsetY : Int := 0
deriving DecidableEq, Repr

/-- Point on the anchor interval selected by the anchor gravity. -/
def anchorPoint : AxisGravity → Int → Int → Int
  | .low, a0, _ => a0
  | .center, a0, a1 => (a0 + a1) / 2
  | .high, _, a1 => a1

/-- Start coordinate of the popup frame so that the popup edge selected
by the gravity touches the given point. -/
def popupStart : AxisGravity → Int → Int → Int
  | .low, p, _ => p
  | .center, p, f => p - f / 2
  | .high, p, f => p - f

/-- Mirror a gravity across the anchor, used by the flip adjustment. -/
def mirrorGravity : AxisGravity → AxisGravity
  | .low => .high
  | .center => .center
  | .high => .low

/-- Modelled from the spec: one axis of the placement solver, which is
implemented in shell/platform/common/windowing.cc and is not under src/.
Base placement puts the popup edge selected by the popup gravity at the
anchor point selected by the anchor gravity and applies the offset; on
overflow of the output interval the fixed precedence applies: flip (only
when the mirrored placement fits entirely), then slide (translate by the
minimum amount needed to fit), then resize (shrink the overflowing edges
to the output boundary, never growing). Returns the start and stop
coordinates of the placed frame on this axis. -/
def placeAxis (ag pg : AxisGravity) (off f a0 a1 o0 o1 : Int) : Int × Int :=
  let base := popupStart pg (anchorPoint ag a0 a1) f + off
  if o0 ≤ base ∧ base + f ≤ o1 then (base, base + f)
  else
    let flipped := popupStart (mirrorGravity pg) (anchorPoint (mirrorGravity ag) a0 a1) f + off
    if o0 ≤ flipped ∧ flipped + f ≤ o1 then (flipped, flipped + f)
    else
      let slid := min (max base o0) (o1 - f)
      if o0 ≤ slid ∧ slid + f ≤ o1 then (slid, slid + f)
      else (max slid o0, min (slid + f) o1)

/-- Modelled from the spec: the pure placement function
PlaceWindow(positioner, frameSize, anchorRect, ownerRect, outputRect),
implemented in shell/platform/common/windowing.cc outside src/. All
arguments are in the same screen space coordinate system; the anchor
rectangle has already been resolved by the caller (the constructor in
flutter_host_window.cc), so the owner rectangle does not enter the
per axis computation. The two axes are adjusted independently. -/
def PlaceWindow (pos : WindowPositioner) (frameSize : ISize)
    (anchorRect ownerRect outputRect : IRect) : IRect :=
  let x := placeAxis pos.anchorGravityX pos.popupGravityX pos.offsetX
    frameSize.w anchorRect.left anchorRect.right outputRect.left outputRect.right
  let y := placeAxis pos.anchorGravityY pos.popupGravityY pos.offsetY
    frameSize.h anchorRect.top anchorRect.bottom outputRect.top outputRect.bottom
  { left := x.1, top := y.1, right := x.2, bottom := y.2 }

/- ### Construction settings and the host window constructor -/

/-- Creation settings handed to the FlutterHostWindow constructor,
modelling WindowCreationSettings. -/
structure WindowCreationSettings where
  archetype : WindowArchetype := .regular
  parentViewId : Option Nat := none
  positioner : Option WindowPositioner := none
  size : DSize := ⟨.fin 0, .fin 0⟩
  minSize : Option DSize := none
  maxSize : Option DSize := none
  state : Option WindowState := none
  title : Option String := none
deriving DecidableEq, Repr

/-- Environment of one constructor run: the DPI scale factor of the
owner display, the resolution of a parent view id to the handle of its
host window, and the success of the external native steps (view
creation, window class registration, CreateWindowEx). -/
structure ConstructionEnv where
  scaleFactor : ℚ := 1
  ownerOf : Nat → Nat := fun _ => 0
  viewCreated : Bool := true
  classRegistered : Bool := true
  nativeHandle : Option Nat := some 1

/-- Fields of a FlutterHostWindow instance that the constructor writes,
with the source member names. A failed construction leaves
windowHandle underscore unassigned (none). -/
structure HostWindowConstruction where
  archetype_ : WindowArchetype
  windowHandle_ : Option Nat := none
  minSize_ : Option DSize := none
  maxSize_ : Option DSize := none
  state_ : Option WindowState := none
deriving DecidableEq, Repr

/-- The size constraint validation of the constructor: both bounds are
present and the minimum exceeds the maximum in width or in height,
compared on the original (pre discard) values. -/
def sizeConstraintViolation (s : WindowCreationSettings) : Bool :=
  match s.minSize, s.maxSize with
  | some mn, some mx => dblGt mn.width mx.width || dblGt mn.height mx.height
  | _, _ => false

/-- Discard a bound entirely when either of its components is infinite,
as the constructor does after validation. -/
def dropInfBound : Option DSize → Option DSize
  | some d => if hasInfComponent d then none else some d
  | none => none

/-- The archetype precondition checks of the constructor: a regular
window passes when it has neither owner nor positioner, a popup when it
has both. The owner is the handle resolved from the parent view id. -/
def archetypeChecksPass (env : ConstructionEnv) (s : WindowCreationSettings) : Bool :=
  match s.archetype with
  | .regular => (s.parentViewId.map env.ownerOf).isNone && s.positioner.isNone
  | .popup => s.positioner.isSome && (s.parentViewId.map env.ownerOf).isSome

/-- The invalid requests of claim C3: a regular window given an owner or
a positioner, a popup given no owner or no positioner, or a minimum size
exceeding the maximum in some component. -/
def invalidConstructionRequest (s : WindowCreationSettings) : Prop :=
  (s.archetype = WindowArchetype.regular ∧
    (s.parentViewId.isSome = true ∨ s.positioner.isSome = true)) ∨
  (s.archetype = WindowArchetype.popup ∧
    (s.parentViewId.isNone = true ∨ s.positioner.isNone = true)) ∨
  sizeConstraintViolation s = true

/-- Settings that satisfy the archetype preconditions, independently of
the environment. -/
def archetypeRequirementsOk (s : WindowCreationSettings) : Prop :=
  (s.archetype = WindowArchetype.regular ∧ s.parentViewId = none ∧ s.positioner = none) ∨
  (s.archetype = WindowArchetype.popup ∧ s.parentViewId.isSome = true ∧
    s.positioner.isSome = true)

instance (s : WindowCreationSettings) : Decidable (invalidConstructionRequest s) := by
  unfold invalidConstructionRequest; exact inferInstance

instance (s : WindowCreationSettings) : Decidable (archetypeRequirementsOk s) := by
  unfold archetypeRequirementsOk; exact inferInstance

/-- The FlutterHostWindow constructor. It resolves the owner handle from
the parent view id, checks the archetype preconditions (a regular window
must have neither owner nor positioner, a popup must have both), then
validates the size constraints on the original values, then discards any
bound with an infinite component, scales the surviving bounds to
physical coordinates, and finally performs the external steps (view
creation, class registration, CreateWindowEx); only when all of them
succeed are the initial state and the window handle recorded. The owner
side bookkeeping performed on success is modelled separately on the
runtime window tree. -/
def FlutterHostWindowCtor (env : ConstructionEnv) (s : WindowCreationSettings) :
    HostWindowConstruction :=
  let base : HostWindowConstruction := { archetype_ := s.archetype }
  if !archetypeChecksPass env s then base
  else if sizeConstraintViolation s then base
  else
    let minL := dropInfBound s.minSize
    let maxL := dropInfBound s.maxSize
    let r1 : HostWindowConstruction := { base with
        minSize_ := minL.map (scaleDSize env.scaleFactor),
        maxSize_ := maxL.map (scaleDSize env.scaleFactor) }
    if !env.viewCreated then r1
    else if !env.classRegistered then r1
    else
      match env.nativeHandle with
      | none => r1
      | some hwnd =>
        { r1 with state_ := some (s.state.getD WindowState.restored),
                  windowHandle_ := some hwnd }

/- ### Controller: buffering, forwarding, registration -/

/-- The structured message handed to the embedding callback, modelling
the WindowsMessage struct; the callback may write the result and handled
fields before returning. -/
structure WindowsMessage where
  viewId : Nat
  hwnd : Nat
  message : Nat
  wParam : Int
  lParam : Int
  result : Int := 0
  handled : Bool := false
deriving DecidableEq, Repr

/-- A raw native message as received by the window procedure, before the
view id is resolved. -/
structure RawMessage where
  hwnd : Nat
  message : Nat
  wParam : Int := 0
  lParam : Int := 0
deriving DecidableEq, Repr

/-- Numeric value of the WM_NCDESTROY message constant. -/
def WM_NCDESTROY : Nat := 130

/-- Environment of the controller: resolution of a top level window
handle to its view id, and the embedding callback installed by
Initialize. The callback receives the message struct and returns it with
the result and handled fields possibly updated. -/
structure ControllerEnv where
  viewOf : Nat → Option Nat
  onMessage : WindowsMessage → WindowsMessage

/-- Mutable state of the FlutterHostWindowController: whether Initialize
has run (the isolate and the callback are installed together), the
buffered messages, the registry of active window handles, and a log of
the messages passed to the callback, in invocation order. -/
structure ControllerState where
  initialized : Bool := false
  pendingMessages : List WindowsMessage := []
  activeWindows : List Nat := []
  delivered : List WindowsMessage := []
deriving DecidableEq, Repr

/-- Remove every occurrence of a key from a list of naturals (the lists
the model uses are duplicate free, so this is the single element erase
of std::set and std::map). -/
def eraseNat : List Nat → Nat → List Nat
  | [], _ => []
  | x :: xs, h => if x = h then eraseNat xs h else x :: eraseNat xs h

/-- Build the message struct passed to the callback, with result zero
and handled false, as HandleMessage does. -/
def mkWindowsMessage (viewId : Nat) (r : RawMessage) : WindowsMessage :=
  { viewId := viewId, hwnd := r.hwnd, message := r.message,
    wParam := r.wParam, lParam := r.lParam, result := 0, handled := false }

namespace FlutterHostWindowController

/-- Controller HandleMessage: erase the handle from the registry on
WM_NCDESTROY, resolve the view (dropping the message when none exists),
then either buffer the message when Initialize has not run, or invoke
the callback synchronously and return its result exactly when it marked
the message handled. -/
def HandleMessage (env : ControllerEnv) (st : ControllerState) (r : RawMessage) :
    ControllerState × Option Int :=
  let st1 := if r.message = WM_NCDESTROY then
      { st with activeWindows := eraseNat st.activeWindows r.hwnd }
    else st
  match env.viewOf r.hwnd with
  | none => (st1, none)
  | some vid =>
    let m := mkWindowsMessage vid r
    if st1.initialized then
      let m' := env.onMessage m
      ({ st1 with delivered := st1.delivered ++ [m] },
        if m'.handled then some m'.result else none)
    else
      ({ st1 with pendingMessages := st1.pendingMessages ++ [m] }, none)

/-- Controller Initialize: install the callback and the isolate, replay
every buffered message to the callback in arrival order (the results of
the replayed invocations are discarded by the source), then clear the
buffer. -/
def Initialize (st : ControllerState) : ControllerState :=
  { st with initialized := true,
            delivered := st.delivered ++ st.pendingMessages,
            pendingMessages := [] }

/-- Process a list of raw messages through HandleMessage, keeping the
state. -/
def run (env : ControllerEnv) (st : ControllerState) (rs : List RawMessage) :
    ControllerState :=
  rs.foldl (fun s r => (HandleMessage env s r).1) st

/-- The message struct a raw message turns into once its view resolves. -/
def toDelivered (env : ControllerEnv) (r : RawMessage) : WindowsMessage :=
  mkWindowsMessage ((env.viewOf r.hwnd).getD 0) r

/-- Registration step of CreateWindow underscore: a construction without
a native handle reports failure (view id zero) and registers nothing;
otherwise the window is stored in the registry under its handle and the
view id of its view is returned. -/
def registerWindow (st : ControllerState) (cr : HostWindowConstruction)
    (vid : Nat) : Nat × ControllerState :=
  match cr.windowHandle_ with
  | none => (0, st)
  | some h => (vid, { st with activeWindows := st.activeWindows ++ [h] })

end FlutterHostWindowController

/-- A window creation request arriving through the public creation
interface (flutter create regular window). -/
structure WindowCreationRequest where
  width : Dbl := .fin 0
  height : Dbl := .fin 0
  minWidth : Dbl := .fin 0
  minHeight : Dbl := .fin 0
  maxWidth : Dbl := .fin 0
  maxHeight : Dbl := .fin 0
deriving DecidableEq, Repr

/-- The settings CreateWindow underscore builds from a creation request:
the client size and the minimum size are always passed (the minimum even
when zero), the maximum size only when both components are nonzero; the
archetype is regular and no owner or positioner is set. -/
def creationSettingsOfRequest (r : WindowCreationRequest) : WindowCreationSettings :=
  { archetype := .regular,
    size := ⟨r.width, r.height⟩,
    minSize := some ⟨r.minWidth, r.minHeight⟩,
    maxSize := if r.maxWidth ≠ Dbl.fin 0 ∧ r.maxHeight ≠ Dbl.fin 0
      then some ⟨r.maxWidth, r.maxHeight⟩ else none }

/-- Full CreateWindow underscore: build the settings, run the
constructor, then register the result. -/
def CreateWindow_ (cenv : ConstructionEnv)
    (vid : Nat) (st : ControllerState) (r : WindowCreationRequest) :
    Nat × ControllerState :=
  FlutterHostWindowController.registerWindow st
    (FlutterHostWindowCtor cenv (creationSettingsOfRequest r)) vid

/- ### Runtime window tree -/

/-- Runtime view of one live FlutterHostWindow, with the mutable members
the message handlers touch. The nativeState field models the actual
show state of the native window (the state IsIconic and IsZoomed would
report), maintained by the operating system model. -/
structure HostWindow where
  handle : Nat
  archetype : WindowArchetype
  ownerHandle : Option Nat := none
  ownedWindows : List Nat := []
  numOwnedPopups : Nat := 0
  childContent : Option Nat := none
  enableRedrawNonClientAsInactive : Bool := true
  pendingShow : Bool := true
  winState : Option WindowState := none
  nativeState : WindowState := WindowState.restored
deriving DecidableEq, Repr

/-- The window tree and the input focus: the controller registry and the
per handle instance property table coincide, so a single association of
handles to windows models both. -/
structure World where
  windows : List HostWindow
  focus : Option Nat := none
deriving DecidableEq, Repr

/-- Look up a window by handle (GetThisFromHandle). -/
def lookupWin : List HostWindow → Nat → Option HostWindow
  | [], _ => none
  | e :: es, h => if e.handle = h then some e else lookupWin es h

/-- Apply an update to the entry with the given handle, leaving every
other entry unchanged. -/
def updFn (h : Nat) (f : HostWindow → HostWindow) (e : HostWindow) : HostWindow :=
  if e.handle = h then f e else e

/-- Map the update over the table. -/
def updateWin (l : List HostWindow) (h : Nat) (f : HostWindow → HostWindow) :
    List HostWindow :=
  l.map (updFn h f)

/-- Remove the entry with the given handle from the table. -/
def removeWin : List HostWindow → Nat → List HostWindow
  | [], _ => []
  | e :: es, h => if e.handle = h then removeWin es h else e :: removeWin es h

/-- Whether the handle currently names a popup window. -/
def isPopupAt (ws : List HostWindow) (h : Nat) : Bool :=
  match lookupWin ws h with
  | some e => decide (e.archetype = WindowArchetype.popup)
  | none => false

/-- Number of handles in the list that currently name popup windows. -/
def countPopups (ws : List HostWindow) : List Nat → Nat
  | [] => 0
  | x :: xs => (if isPopupAt ws x then 1 else 0) + countPopups ws xs

/-- The popup members of an owned list (the snapshot CloseOwnedPopups
takes). -/
def takePopups (ws : List HostWindow) : List Nat → List Nat
  | [] => []
  | x :: xs => if isPopupAt ws x then x :: takePopups ws xs else takePopups ws xs

/-- The non popup members of an owned list (what remains after the erase
loop of CloseOwnedPopups). -/
def dropPopups (ws : List HostWindow) : List Nat → List Nat
  | [] => []
  | x :: xs => if isPopupAt ws x then dropPopups ws xs else x :: dropPopups ws xs

/-- Set the transient inactive redraw suppression flag. -/
def setRedrawFlag (b : Bool) (e : HostWindow) : HostWindow :=
  { e with enableRedrawNonClientAsInactive := b }

/-- Owner side bookkeeping of the destroy notification of a popup with
handle h: erase the popup from the owned set and decrement the popup
count. -/
def unlinkPopupFrom (h : Nat) (ow : HostWindow) : HostWindow :=
  { ow with ownedWindows := eraseNat ow.ownedWindows h,
            numOwnedPopups := ow.numOwnedPopups - 1 }

/-- The erase phase of CloseOwnedPopups on one window: drop every popup
member from the owned set, deciding popup membership against the given
table. -/
def dropPopupsFrom (ws : List HostWindow) (e0 : HostWindow) : HostWindow :=
  { e0 with ownedWindows := dropPopups ws e0.ownedWindows }

/-- Record a stored state and apply the corresponding show command to
the native window, as SetState does. -/
def applyState (s : WindowState) (e : HostWindow) : HostWindow :=
  { e with winState := some s, nativeState := s }

/-- Clear the pending show latch and apply the show command derived from
the stored state (regular windows) or a plain show (popups). -/
def applyFirstShow (e0 : HostWindow) : HostWindow :=
  { e0 with pendingShow := false,
            nativeState := match e0.archetype with
              | .regular => e0.winState.getD WindowState.restored
              | .popup => WindowState.restored }

/-- Operating system side change of the actual show state. -/
def setNativeState (s : WindowState) (e : HostWindow) : HostWindow :=
  { e with nativeState := s }

namespace FlutterHostWindow

/-- Table part of the WM_DESTROY handler: when the destroyed window is a
popup and its native owner resolves to a live window, erase the popup
from the owned set of the owner and decrement the popup count of the
owner. -/
def destroyUnlink (ws : List HostWindow) (h : Nat) : List HostWindow :=
  match lookupWin ws h with
  | none => ws
  | some e =>
    match e.archetype with
    | .regular => ws
    | .popup =>
      match e.ownerHandle with
      | none => ws
      | some oh =>
        match lookupWin ws oh with
        | none => ws
        | some _ => updateWin ws oh (unlinkPopupFrom h)

/-- Focus part of the WM_DESTROY handler: the source restores focus to
the child content of the owner whenever that content exists, reading the
owner found through the native owner link. -/
def destroyFocus (w : World) (h : Nat) : Option Nat :=
  match lookupWin w.windows h with
  | none => w.focus
  | some e =>
    match e.archetype with
    | .regular => w.focus
    | .popup =>
      match e.ownerHandle with
      | none => w.focus
      | some oh =>
        match lookupWin w.windows oh with
        | none => w.focus
        | some o =>
          match o.childContent with
          | some c => some c
          | none => w.focus

/-- The WM_DESTROY branch of FlutterHostWindow HandleMessage. -/
def handleDestroy (w : World) (h : Nat) : World :=
  { windows := destroyUnlink w.windows h, focus := destroyFocus w h }

/-- Full native destruction of a window: the WM_DESTROY handler runs,
then WM_NCDESTROY unregisters the window from the controller registry
and the instance property table, destroying the instance. -/
def destroyNative (w : World) (h : Nat) : World :=
  let w1 := handleDestroy w h
  { w1 with windows := removeWin w1.windows h }

/-- One iteration of the close loop of CloseOwnedPopups, threading the
window tree together with the list of posted WM_CLOSE requests:
re-resolve the owner of the popup through its native owner link,
suppress the inactive redraw of that owner, post the WM_CLOSE request
for the popup (PostMessage only queues the message; no window state
changes here), re-enable the flag, and check the repaint condition on
the popup count of the owner (the repaint changes no modelled state).
The queued request is processed only when the message pump later
dispatches it. -/
def closeStep (wq : World × List Nat) (ph : Nat) : World × List Nat :=
  match lookupWin wq.1.windows ph with
  | none => wq
  | some p =>
    match p.ownerHandle with
    | none => wq
    | some oh =>
      match lookupWin wq.1.windows oh with
      | none => wq
      | some _ =>
        let w1 : World := { wq.1 with
          windows := updateWin wq.1.windows oh (setRedrawFlag false) }
        let w3 : World := { w1 with
          windows := updateWin w1.windows oh (setRedrawFlag true) }
        (w3, wq.2 ++ [ph])

/-- The state of the window tree after the snapshot and erase phase of
CloseOwnedPopups and before any popup has been closed: every popup
member has been removed from the owned set of the window the operation
runs on, while its popup count is still untouched. This state is
observable: the destroy handlers and the repaint condition of the close
loop, and any reentrant query, read it. -/
def closeUnlinked (w : World) (h : Nat) : World :=
  { w with windows := updateWin w.windows h (dropPopupsFrom w.windows) }

/-- CloseOwnedPopups: return zero immediately when the popup count is
zero; otherwise snapshot the popup members of the owned set, erase them
from the owned set, post a WM_CLOSE request for each snapshotted popup,
and return the difference between the popup count before the operation
and at the return statement. The result carries the returned count, the
window tree at the return statement and the list of posted close
requests, which are still sitting unprocessed in the thread message
queue when the function returns. -/
def CloseOwnedPopups (w : World) (h : Nat) : Nat × World × List Nat :=
  match lookupWin w.windows h with
  | none => (0, w, [])
  | some e =>
    if e.numOwnedPopups = 0 then (0, w, [])
    else
      let popups := takePopups w.windows e.ownedWindows
      let w1 := closeUnlinked w h
      let wq := popups.foldl closeStep (w1, [])
      let post := match lookupWin wq.1.windows h with
        | some e2 => e2.numOwnedPopups
        | none => 0
      (e.numOwnedPopups - post, wq.1, wq.2)

/-- The message pump draining the WM_CLOSE requests that CloseOwnedPopups
posted: each dispatched request reaches the default window procedure,
which destroys the window, running the WM_DESTROY handler and then the
WM_NCDESTROY unregistration. This runs only after CloseOwnedPopups has
returned. -/
def pumpPostedCloses (w : World) (q : List Nat) : World :=
  q.foldl destroyNative w

/-- SetState: apply the show command for the requested state to the
native window and record the state in the stored state member. -/
def SetState (w : World) (h : Nat) (s : WindowState) : World :=
  { w with windows := updateWin w.windows h (applyState s) }

end FlutterHostWindow

/-- The native messages the FlutterHostWindow message handler
dispatches on. The size message carries the state transition the native
layer reports in its wParam (SIZE_RESTORED, SIZE_MINIMIZED,
SIZE_MAXIMIZED), or none for the other size kinds. -/
inductive WinMsg where
  | destroy
  | dpiChanged (suggested : IRect)
  | showWindow (shown : Bool) (lparamZero : Bool)
  | getMinMaxInfo
  | size (mode : Option WindowState)
  | activate (active : Bool)
  | ncActivate (active : Bool)
  | colorizationChanged
  | other (code : Nat)
deriving DecidableEq, Repr

namespace FlutterHostWindow

/-- FlutterHostWindow HandleMessage, restricted to the effects on the
modelled state. WM_DESTROY runs the unlink and focus logic;
WM_SHOWWINDOW on the first show clears the pending show latch and
applies the show command derived from the stored state (regular windows)
or a plain show (popups) to the native window; WM_ACTIVATE moves focus
to the child content; WM_DPICHANGED, WM_GETMINMAXINFO, WM_SIZE,
WM_NCACTIVATE and the theme message change no modelled state. No branch
writes the stored state member. -/
def HandleMessage (w : World) (h : Nat) (m : WinMsg) : World :=
  match lookupWin w.windows h with
  | none => w
  | some e =>
    match m with
    | .destroy => handleDestroy w h
    | .dpiChanged _ => w
    | .showWindow shown lpz =>
      if shown && lpz && e.pendingShow then
        { w with windows := updateWin w.windows h applyFirstShow }
      else w
    | .getMinMaxInfo => w
    | .size _ => w
    | .activate active =>
      if active then
        match e.childContent with
        | some c => { w with focus := some c }
        | none => w
      else w
    | .ncActivate _ => w
    | .colorizationChanged => w
    | .other _ => w

end FlutterHostWindow

/-- Stored state member of the window registered under a handle, when
one exists. -/
def World.winStateAt (w : World) (k : Nat) : Option (Option WindowState) :=
  (lookupWin w.windows k).map HostWindow.winState

/-- Actual native show state of the window registered under a handle,
when one exists. -/
def World.nativeStateAt (w : World) (k : Nat) : Option WindowState :=
  (lookupWin w.windows k).map HostWindow.nativeState

/-- A native minimize, maximize or restore performed by the user or the
system: the operating system changes the actual window state and then
delivers the WM_SIZE notification carrying that transition to the
window procedure. -/
def World.nativeStateChange (w : World) (h : Nat) (s : WindowState) : World :=
  FlutterHostWindow.HandleMessage
    { w with windows := updateWin w.windows h (setNativeState s) }
    h (WinMsg.size (some s))

/- ### Well formedness of the window tree -/

/-- Count invariant of the specification: the popup count of every
window equals the number of members of its owned set whose archetype is
popup. -/
def countInvAll (w : World) : Prop :=
  ∀ e ∈ w.windows, e.numOwnedPopups = countPopups w.windows e.ownedWindows

/-- Well formed window tree: handles are unique, owned sets are
duplicate free, every owned member points back to its owner
(membership in an owned set is equivalent to the owner link), the count
invariant holds, regular windows have no owner, and no window owns
itself. -/
def WF (w : World) : Prop :=
  (w.windows.map HostWindow.handle).Nodup ∧
  (∀ e ∈ w.windows, e.ownedWindows.Nodup) ∧
  (∀ e ∈ w.windows, ∀ x ∈ e.ownedWindows,
      (lookupWin w.windows x).map HostWindow.ownerHandle = some (some e.handle)) ∧
  (∀ e ∈ w.windows, ∀ o ∈ w.windows, e.ownerHandle = some o.handle →
      e.handle ∈ o.ownedWindows) ∧
  countInvAll w ∧
  (∀ e ∈ w.windows, e.archetype = WindowArchetype.regular → e.ownerHandle = none) ∧
  (∀ e ∈ w.windows, e.ownerHandle ≠ some e.handle)

instance (w : World) : Decidable (countInvAll w) := by
  unfold countInvAll; exact inferInstance

instance (w : World) : Decidable (WF w) := by
  unfold WF; exact inferInstance

/-- Induction invariant of the close loop of CloseOwnedPopups, running
on the window with handle h whose owned set has already been reduced to
the popup free list L0, with the listed popups still pending their
close request: handles stay unique; the window itself is live with owned
set L0 and a popup count equal to the number of pending popups; L0
carries no popups; the pending popups are distinct live popups owned by
h that no owned set mentions any more; and every other window satisfies
the count invariant. -/
def LoopInv (h : Nat) (L0 : List Nat) (w : World) (pending : List Nat) : Prop :=
  (w.windows.map HostWindow.handle).Nodup ∧
  (∃ self, lookupWin w.windows h = some self ∧ self.ownedWindows = L0 ∧
    self.numOwnedPopups = pending.length) ∧
  countPopups w.windows L0 = 0 ∧
  pending.Nodup ∧
  (∀ p ∈ pending, p ≠ h ∧
    (∃ pe, lookupWin w.windows p = some pe ∧
      pe.archetype = WindowArchetype.popup ∧ pe.ownerHandle = some h) ∧
    (∀ e ∈ w.windows, p ∉ e.ownedWindows)) ∧
  (∀ e ∈ w.windows, e.handle ≠ h →
    e.numOwnedPopups = countPopups w.windows e.ownedWindows)

/- ### Concrete instances used to evaluate the definitions -/

/-- A regular window with handle 1 owning the two popups 2 and 3. -/
def ownerEnt3 : HostWindow :=
  { handle := 1, archetype := .regular, ownedWindows := [2, 3],
    numOwnedPopups := 2, childContent := some 10, pendingShow := false,
    winState := some WindowState.restored }

/-- Popup window with handle 2, owned by window 1. -/
def popupEnt2 : HostWindow :=
  { handle := 2, archetype := .popup, ownerHandle := some 1,
    childContent := some 20, pendingShow := false }

/-- Popup window with handle 3, owned by window 1. -/
def popupEnt3 : HostWindow :=
  { handle := 3, archetype := .popup, ownerHandle := some 1,
    childContent := some 30, pendingShow := false }

/-- A small window tree: one regular window owning two popups. -/
def exampleWorld3 : World :=
  { windows := [ownerEnt3, popupEnt2, popupEnt3], focus := none }

/-- A construction environment in which every external native step
succeeds. -/
def cEnvOk : ConstructionEnv :=
  { scaleFactor := 1, ownerOf := fun _ => 0, viewCreated := true,
    classRegistered := true, nativeHandle := some 100 }

/-- Settings whose minimum width is infinite while every other value is
finite and valid. -/
def c8SettingsInf : WindowCreationSettings :=
  { archetype := .regular, size := ⟨.fin 800, .fin 600⟩,
    minSize := some ⟨.inf, .fin 1⟩, maxSize := some ⟨.fin 10, .fin 10⟩ }

/-- The same settings with the infinite minimum width replaced by a
small finite value. -/
def c8SettingsFin : WindowCreationSettings :=
  { archetype := .regular, size := ⟨.fin 800, .fin 600⟩,
    minSize := some ⟨.fin 1, .fin 1⟩, maxSize := some ⟨.fin 10, .fin 10⟩ }

/-- A controller environment whose callback handles every message with
result 11, and in which every handle resolves to view 7. -/
def exampleCtrlEnv : ControllerEnv :=
  { viewOf := fun _ => some 7,
    onMessage := fun m => { m with result := 11, handled := true } }

/-- A positioner anchoring the popup top left corner at the anchor top
left corner with a ten by ten offset. -/
def examplePositioner : WindowPositioner :=
  { anchorGravityX := .low, anchorGravityY := .low,
    popupGravityX := .low, popupGravityY := .low,
    offsetX := 10, offsetY := 10 }

/-- A concrete popup frame size. -/
def exampleFrame : ISize := ⟨200, 100⟩

/-- A concrete anchor rectangle inside the output. -/
def exampleAnchor : IRect := ⟨100, 100, 150, 150⟩

/-- A concrete owner rectangle. -/
def exampleOwnerRect : IRect := ⟨0, 0, 800, 600⟩

/-- A concrete output rectangle. -/
def exampleOutput : IRect := ⟨0, 0, 1920, 1080⟩

/-- The settings of the C3 witness: a regular window given a
positioner. -/
def c3Settings : WindowCreationSettings :=
  { archetype := .regular, positioner := some {},
    size := ⟨.fin 800, .fin 600⟩ }

/-! ## Theorems -/

/- ### Table lemmas -/

theorem updFn_handle {h : Nat} {f : HostWindow → HostWindow}
    (hf : ∀ e, (f e).handle = e.handle) (e : HostWindow) :
    (updFn h f e).handle = e.handle := by
  unfold updFn; split <;> simp [hf]

theorem lookupWin_handle : ∀ {l : List HostWindow} {h : Nat} {e : HostWindow},
    lookupWin l h = some e → e.handle = h := by
  intro l
  induction l with
  | nil => intro h e he; simp [lookupWin] at he
  | cons a t ih =>
    intro h e he
    by_cases hc : a.handle = h
    · simp only [lookupWin, if_pos hc, Option.some.injEq] at he
      subst he; exact hc
    · simp only [lookupWin, if_neg hc] at he
      exact ih he

theorem lookupWin_mem : ∀ {l : List HostWindow} {h : Nat} {e : HostWindow},
    lookupWin l h = some e → e ∈ l := by
  intro l
  induction l with
  | nil => intro h e he; simp [lookupWin] at he
  | cons a t ih =>
    intro h e he
    by_cases hc : a.handle = h
    · simp only [lookupWin, if_pos hc, Option.some.injEq] at he
      subst he; exact List.mem_cons_self _ _
    · simp only [lookupWin, if_neg hc] at he
      exact List.mem_cons_of_mem _ (ih he)

theorem lookupWin_eq_none : ∀ {l : List HostWindow} {h : Nat},
    lookupWin l h = none ↔ ∀ e ∈ l, e.handle ≠ h := by
  intro l
  induction l with
  | nil => intro h; simp [lookupWin]
  | cons a t ih =>
    intro h
    by_cases hc : a.handle = h
    · simp [lookupWin, hc]
    · simp [lookupWin, hc, ih]

theorem mem_handle_lookup : ∀ {l : List HostWindow},
    (l.map HostWindow.handle).Nodup → ∀ {e : HostWindow}, e ∈ l →
    lookupWin l e.handle = some e := by
  intro l
  induction l with
  | nil => intro _ e he; simp at he
  | cons a t ih =>
    intro hn e he
    rcases List.mem_cons.mp he with rfl | hmem
    · simp [lookupWin]
    · have hne : a.handle ≠ e.handle := by
        intro hcontra
        have : e.handle ∈ t.map HostWindow.handle := List.mem_map_of_mem _ hmem
        rw [← hcontra] at this
        exact (List.nodup_cons.mp hn).1 this
      simp only [lookupWin, if_neg hne]
      exact ih (List.nodup_cons.mp hn).2 hmem

theorem lookupWin_update {l : List HostWindow} {h k : Nat} {f : HostWindow → HostWindow}
    (hf : ∀ e, (f e).handle = e.handle) :
    lookupWin (updateWin l h f) k = (lookupWin l k).map (updFn h f) := by
  induction l with
  | nil => rfl
  | cons a t ih =>
    show lookupWin (updFn h f a :: updateWin t h f) k = _
    by_cases hc : a.handle = k
    · simp [lookupWin, updFn_handle hf, hc]
    · simp [lookupWin, updFn_handle hf, hc, ih]

theorem lookupWin_update_self {l : List HostWindow} {h : Nat} {f : HostWindow → HostWindow}
    (hf : ∀ e, (f e).handle = e.handle) :
    lookupWin (updateWin l h f) h = (lookupWin l h).map f := by
  rw [lookupWin_update hf]
  cases hl : lookupWin l h with
  | none => rfl
  | some e =>
    have := lookupWin_handle hl
    simp [updFn, this]

theorem lookupWin_update_ne {l : List HostWindow} {h k : Nat} {f : HostWindow → HostWindow}
    (hf : ∀ e, (f e).handle = e.handle) (hk : k ≠ h) :
    lookupWin (updateWin l h f) k = lookupWin l k := by
  rw [lookupWin_update hf]
  cases hl : lookupWin l k with
  | none => rfl
  | some e =>
    have he := lookupWin_handle hl
    have : e.handle ≠ h := by rw [he]; exact hk
    simp [updFn, this]

theorem removeWin_cons (a : HostWindow) (t : List HostWindow) (h : Nat) :
    removeWin (a :: t) h = if a.handle = h then removeWin t h else a :: removeWin t h := rfl

theorem lookupWin_cons (a : HostWindow) (t : List HostWindow) (h : Nat) :
    lookupWin (a :: t) h = if a.handle = h then some a else lookupWin t h := rfl

theorem eraseNat_cons (a : Nat) (t : List Nat) (h : Nat) :
    eraseNat (a :: t) h = if a = h then eraseNat t h else a :: eraseNat t h := rfl

theorem lookupWin_remove : ∀ {l : List HostWindow} {h k : Nat},
    lookupWin (removeWin l h) k = if k = h then none else lookupWin l k := by
  intro l
  induction l with
  | nil => intro h k; simp [removeWin, lookupWin]
  | cons a t ih =>
    intro h k
    rw [removeWin_cons]
    by_cases hah : a.handle = h
    · rw [if_pos hah, ih, lookupWin_cons]
      by_cases hkh : k = h
      · rw [if_pos hkh, if_pos hkh]
      · have hak' : ¬ a.handle = k := by
          intro hc; exact hkh (by rw [← hc, hah])
        rw [if_neg hkh, if_neg hkh, if_neg hak']
    · rw [if_neg hah, lookupWin_cons, lookupWin_cons]
      by_cases hak : a.handle = k
      · have hkh : ¬ k = h := by
          intro hc; exact hah (by rw [hak, hc])
        rw [if_pos hak, if_neg hkh, if_pos hak]
      · rw [if_neg hak, ih, if_neg hak]

theorem mem_updateWin {l : List HostWindow} {h : Nat} {f : HostWindow → HostWindow}
    {e' : HostWindow} :
    e' ∈ updateWin l h f ↔ ∃ e ∈ l, e' = updFn h f e := by
  simp only [updateWin, List.mem_map]
  constructor
  · rintro ⟨e, hm, rfl⟩; exact ⟨e, hm, rfl⟩
  · rintro ⟨e, hm, rfl⟩; exact ⟨e, hm, rfl⟩

theorem mem_removeWin : ∀ {l : List HostWindow} {h : Nat} {e : HostWindow},
    e ∈ removeWin l h ↔ e ∈ l ∧ e.handle ≠ h := by
  intro l
  induction l with
  | nil => intro h e; simp [removeWin]
  | cons a t ih =>
    intro h e
    rw [removeWin_cons]
    by_cases hah : a.handle = h
    · rw [if_pos hah]
      rw [ih]
      constructor
      · rintro ⟨hm, hne⟩; exact ⟨List.mem_cons_of_mem _ hm, hne⟩
      · rintro ⟨hm, hne⟩
        rcases List.mem_cons.mp hm with rfl | hm'
        · exact absurd hah hne
        · exact ⟨hm', hne⟩
    · rw [if_neg hah]
      constructor
      · intro hm
        rcases List.mem_cons.mp hm with rfl | hm'
        · exact ⟨List.mem_cons_self _ _, hah⟩
        · obtain ⟨hm'', hne⟩ := ih.mp hm'
          exact ⟨List.mem_cons_of_mem _ hm'', hne⟩
      · rintro ⟨hm, hne⟩
        rcases List.mem_cons.mp hm with rfl | hm'
        · exact List.mem_cons_self _ _
        · exact List.mem_cons_of_mem _ (ih.mpr ⟨hm', hne⟩)

theorem removeWin_sublist : ∀ (l : List HostWindow) (h : Nat),
    (removeWin l h).Sublist l := by
  intro l
  induction l with
  | nil => intro h; simp [removeWin]
  | cons a t ih =>
    intro h
    rw [removeWin_cons]
    by_cases hah : a.handle = h
    · rw [if_pos hah]; exact (ih h).cons a
    · rw [if_neg hah]; exact (ih h).cons₂ a

theorem handles_updateWin {h : Nat} {f : HostWindow → HostWindow}
    (hf : ∀ e, (f e).handle = e.handle) : ∀ {l : List HostWindow},
    (updateWin l h f).map HostWindow.handle = l.map HostWindow.handle := by
  intro l
  induction l with
  | nil => rfl
  | cons a t ih =>
    simp only [updateWin, List.map] at ih ⊢
    rw [updFn_handle hf, ih]

theorem eraseNat_of_not_mem : ∀ {l : List Nat} {h : Nat}, h ∉ l → eraseNat l h = l := by
  intro l
  induction l with
  | nil => intro h _; rfl
  | cons a t ih =>
    intro h hm
    have ha : ¬ a = h := fun hc => hm (hc ▸ List.mem_cons_self _ _)
    have ht : h ∉ t := fun hc => hm (List.mem_cons_of_mem _ hc)
    rw [eraseNat_cons, if_neg ha, ih ht]

theorem mem_eraseNat : ∀ {l : List Nat} {h x : Nat},
    x ∈ eraseNat l h ↔ x ∈ l ∧ x ≠ h := by
  intro l
  induction l with
  | nil => intro h x; simp [eraseNat]
  | cons a t ih =>
    intro h x
    rw [eraseNat_cons]
    by_cases hah : a = h
    · rw [if_pos hah, ih]
      constructor
      · rintro ⟨hm, hne⟩; exact ⟨List.mem_cons_of_mem _ hm, hne⟩
      · rintro ⟨hm, hne⟩
        rcases List.mem_cons.mp hm with rfl | hm'
        · exact absurd hah hne
        · exact ⟨hm', hne⟩
    · rw [if_neg hah]
      constructor
      · intro hm
        rcases List.mem_cons.mp hm with rfl | hm'
        · exact ⟨List.mem_cons_self _ _, hah⟩
        · obtain ⟨hm'', hne⟩ := ih.mp hm'
          exact ⟨List.mem_cons_of_mem _ hm'', hne⟩
      · rintro ⟨hm, hne⟩
        rcases List.mem_cons.mp hm with rfl | hm'
        · exact List.mem_cons_self _ _
        · exact List.mem_cons_of_mem _ (ih.mpr ⟨hm', hne⟩)

/- ### Popup counting lemmas -/

theorem countPopups_cons (ws : List HostWindow) (x : Nat) (xs : List Nat) :
    countPopups ws (x :: xs) = (if isPopupAt ws x then 1 else 0) + countPopups ws xs := rfl

theorem takePopups_cons (ws : List HostWindow) (x : Nat) (xs : List Nat) :
    takePopups ws (x :: xs) =
      if isPopupAt ws x then x :: takePopups ws xs else takePopups ws xs := rfl

theorem dropPopups_cons (ws : List HostWindow) (x : Nat) (xs : List Nat) :
    dropPopups ws (x :: xs) =
      if isPopupAt ws x then dropPopups ws xs else x :: dropPopups ws xs := rfl

theorem updFn_archetype {h : Nat} {f : HostWindow → HostWindow}
    (ha : ∀ e, (f e).archetype = e.archetype) (e : HostWindow) :
    (updFn h f e).archetype = e.archetype := by
  unfold updFn; split <;> simp [ha]

theorem countPopups_congr {ws1 ws2 : List HostWindow} : ∀ {L : List Nat},
    (∀ x ∈ L, isPopupAt ws1 x = isPopupAt ws2 x) →
    countPopups ws1 L = countPopups ws2 L := by
  intro L
  induction L with
  | nil => intro _; rfl
  | cons x xs ih =>
    intro hx
    rw [countPopups_cons, countPopups_cons, hx x (List.mem_cons_self _ _),
      ih fun y hy => hx y (List.mem_cons_of_mem _ hy)]

theorem isPopupAt_updateWin {ws : List HostWindow} {h x : Nat} {f : HostWindow → HostWindow}
    (hf : ∀ e, (f e).handle = e.handle) (ha : ∀ e, (f e).archetype = e.archetype) :
    isPopupAt (updateWin ws h f) x = isPopupAt ws x := by
  unfold isPopupAt
  rw [lookupWin_update hf]
  cases hl : lookupWin ws x with
  | none => rfl
  | some e =>
    show decide ((updFn h f e).archetype = _) = _
    rw [updFn_archetype ha]

theorem isPopupAt_removeWin {ws : List HostWindow} {h x : Nat} :
    isPopupAt (removeWin ws h) x = if x = h then false else isPopupAt ws x := by
  unfold isPopupAt
  rw [lookupWin_remove]
  by_cases hx : x = h
  · rw [if_pos hx, if_pos hx]
  · rw [if_neg hx, if_neg hx]

theorem countPopups_removeWin {ws : List HostWindow} {p : Nat} : ∀ {L : List Nat},
    (∀ x ∈ L, x ≠ p) → countPopups (removeWin ws p) L = countPopups ws L := by
  intro L hL
  refine countPopups_congr fun x hx => ?_
  rw [isPopupAt_removeWin, if_neg (hL x hx)]

theorem countPopups_eraseNat {ws : List HostWindow} {h : Nat} : ∀ {L : List Nat},
    L.Nodup → h ∈ L → isPopupAt ws h = true →
    countPopups ws L = countPopups ws (eraseNat L h) + 1 := by
  intro L
  induction L with
  | nil => intro _ hm; simp at hm
  | cons a t ih =>
    intro hn hm hp
    rw [eraseNat_cons, countPopups_cons]
    rcases List.mem_cons.mp hm with rfl | hm'
    · rw [if_pos rfl, hp,
        eraseNat_of_not_mem (List.nodup_cons.mp hn).1]
      simp only [if_true]
      omega
    · have hah : ¬ a = h := by
        intro hc
        exact (List.nodup_cons.mp hn).1 (hc ▸ hm')
      rw [if_neg hah, countPopups_cons,
        ih (List.nodup_cons.mp hn).2 hm' hp]
      omega

theorem length_takePopups (ws : List HostWindow) : ∀ (L : List Nat),
    (takePopups ws L).length = countPopups ws L := by
  intro L
  induction L with
  | nil => rfl
  | cons x xs ih =>
    rw [takePopups_cons, countPopups_cons]
    by_cases hx : isPopupAt ws x
    · rw [if_pos hx, if_pos hx, List.length_cons, ih]; omega
    · rw [if_neg hx, if_neg hx, ih]; omega

theorem mem_takePopups {ws : List HostWindow} : ∀ {L : List Nat} {x : Nat},
    x ∈ takePopups ws L ↔ x ∈ L ∧ isPopupAt ws x = true := by
  intro L
  induction L with
  | nil => intro x; simp [takePopups]
  | cons a t ih =>
    intro x
    rw [takePopups_cons]
    by_cases ha : isPopupAt ws a
    · rw [if_pos ha]
      constructor
      · intro hm
        rcases List.mem_cons.mp hm with rfl | hm'
        · exact ⟨List.mem_cons_self _ _, ha⟩
        · obtain ⟨hm'', hx⟩ := ih.mp hm'
          exact ⟨List.mem_cons_of_mem _ hm'', hx⟩
      · rintro ⟨hm, hx⟩
        rcases List.mem_cons.mp hm with rfl | hm'
        · exact List.mem_cons_self _ _
        · exact List.mem_cons_of_mem _ (ih.mpr ⟨hm', hx⟩)
    · rw [if_neg ha, ih]
      constructor
      · rintro ⟨hm, hx⟩; exact ⟨List.mem_cons_of_mem _ hm, hx⟩
      · rintro ⟨hm, hx⟩
        rcases List.mem_cons.mp hm with rfl | hm'
        · exact absurd hx ha
        · exact ⟨hm', hx⟩

theorem takePopups_nodup {ws : List HostWindow} : ∀ {L : List Nat},
    L.Nodup → (takePopups ws L).Nodup := by
  intro L
  induction L with
  | nil => intro _; simp [takePopups]
  | cons a t ih =>
    intro hn
    rw [takePopups_cons]
    by_cases ha : isPopupAt ws a
    · rw [if_pos ha]
      refine List.nodup_cons.mpr ⟨?_, ih (List.nodup_cons.mp hn).2⟩
      intro hc
      exact (List.nodup_cons.mp hn).1 (mem_takePopups.mp hc).1
    · rw [if_neg ha]
      exact ih (List.nodup_cons.mp hn).2

theorem mem_dropPopups {ws : List HostWindow} : ∀ {L : List Nat} {x : Nat},
    x ∈ dropPopups ws L ↔ x ∈ L ∧ isPopupAt ws x = false := by
  intro L
  induction L with
  | nil => intro x; simp [dropPopups]
  | cons a t ih =>
    intro x
    rw [dropPopups_cons]
    by_cases ha : isPopupAt ws a
    · rw [if_pos ha, ih]
      constructor
      · rintro ⟨hm, hx⟩; exact ⟨List.mem_cons_of_mem _ hm, hx⟩
      · rintro ⟨hm, hx⟩
        rcases List.mem_cons.mp hm with rfl | hm'
        · rw [ha] at hx; cases hx
        · exact ⟨hm', hx⟩
    · rw [if_neg ha]
      constructor
      · intro hm
        rcases List.mem_cons.mp hm with rfl | hm'
        · exact ⟨List.mem_cons_self _ _, Bool.eq_false_iff.mpr ha⟩
        · obtain ⟨hm'', hx⟩ := ih.mp hm'
          exact ⟨List.mem_cons_of_mem _ hm'', hx⟩
      · rintro ⟨hm, hx⟩
        rcases List.mem_cons.mp hm with rfl | hm'
        · exact List.mem_cons_self _ _
        · exact List.mem_cons_of_mem _ (ih.mpr ⟨hm', hx⟩)

theorem countPopups_dropPopups (ws : List HostWindow) : ∀ (L : List Nat),
    countPopups ws (dropPopups ws L) = 0 := by
  intro L
  induction L with
  | nil => rfl
  | cons a t ih =>
    rw [dropPopups_cons]
    by_cases ha : isPopupAt ws a
    · rw [if_pos ha]; exact ih
    · rw [if_neg ha, countPopups_cons, if_neg ha, ih]

/- ### Controller lemmas and claims C1, C2 -/

namespace FlutterHostWindowController

theorem handleMessage_uninit {env : ControllerEnv} {st : ControllerState} {r : RawMessage}
    (hinit : st.initialized = false) (hres : (env.viewOf r.hwnd).isSome = true) :
    (HandleMessage env st r).1.initialized = false ∧
    (HandleMessage env st r).1.pendingMessages =
      st.pendingMessages ++ [toDelivered env r] ∧
    (HandleMessage env st r).1.delivered = st.delivered := by
  obtain ⟨vid, hv⟩ := Option.isSome_iff_exists.mp hres
  unfold HandleMessage toDelivered
  by_cases hnc : r.message = WM_NCDESTROY
  · simp [hnc, hv, hinit]
  · simp [hnc, hv, hinit]

theorem handleMessage_init {env : ControllerEnv} {st : ControllerState} {r : RawMessage}
    (hinit : st.initialized = true) (hres : (env.viewOf r.hwnd).isSome = true) :
    (HandleMessage env st r).1.initialized = true ∧
    (HandleMessage env st r).1.pendingMessages = st.pendingMessages ∧
    (HandleMessage env st r).1.delivered = st.delivered ++ [toDelivered env r] := by
  obtain ⟨vid, hv⟩ := Option.isSome_iff_exists.mp hres
  unfold HandleMessage toDelivered
  by_cases hnc : r.message = WM_NCDESTROY
  · simp [hnc, hv, hinit]
  · simp [hnc, hv, hinit]

theorem run_cons (env : ControllerEnv) (st : ControllerState) (r : RawMessage)
    (rs : List RawMessage) :
    run env st (r :: rs) = run env (HandleMessage env st r).1 rs := rfl

theorem run_uninit {env : ControllerEnv} : ∀ {rs : List RawMessage} {st : ControllerState},
    st.initialized = false → (∀ r ∈ rs, (env.viewOf r.hwnd).isSome = true) →
    (run env st rs).initialized = false ∧
    (run env st rs).pendingMessages = st.pendingMessages ++ rs.map (toDelivered env) ∧
    (run env st rs).delivered = st.delivered := by
  intro rs
  induction rs with
  | nil => intro st hinit _; exact ⟨hinit, by simp [run], rfl⟩
  | cons r rs ih =>
    intro st hinit hres
    obtain ⟨h1, h2, h3⟩ :=
      handleMessage_uninit hinit (hres r (List.mem_cons_self _ _))
    obtain ⟨g1, g2, g3⟩ := ih h1 fun x hx => hres x (List.mem_cons_of_mem _ hx)
    rw [run_cons]
    refine ⟨g1, ?_, by rw [g3, h3]⟩
    rw [g2, h2, List.map_cons, List.append_assoc, List.singleton_append]

theorem run_init {env : ControllerEnv} : ∀ {rs : List RawMessage} {st : ControllerState},
    st.initialized = true → (∀ r ∈ rs, (env.viewOf r.hwnd).isSome = true) →
    (run env st rs).initialized = true ∧
    (run env st rs).pendingMessages = st.pendingMessages ∧
    (run env st rs).delivered = st.delivered ++ rs.map (toDelivered env) := by
  intro rs
  induction rs with
  | nil => intro st hinit _; exact ⟨hinit, rfl, by simp [run]⟩
  | cons r rs ih =>
    intro st hinit hres
    obtain ⟨h1, h2, h3⟩ :=
      handleMessage_init hinit (hres r (List.mem_cons_self _ _))
    obtain ⟨g1, g2, g3⟩ := ih h1 fun x hx => hres x (List.mem_cons_of_mem _ hx)
    rw [run_cons]
    refine ⟨g1, by rw [g2, h2], ?_⟩
    rw [g3, h3, List.map_cons, List.append_assoc, List.singleton_append]

end FlutterHostWindowController

/-- C1: every event that arrives before Initialize is buffered in
arrival order and none is forwarded; Initialize installs the callback,
replays exactly the buffered events to the callback in arrival order,
and clears the buffer; every event arriving after Initialize is
forwarded immediately, so the delivery log is exactly the pre
initialization events followed by the post initialization events, each
exactly once, and the buffer stays empty. -/
theorem c1_initialize_buffering_replay (env : ControllerEnv)
    (pre post : List RawMessage)
    (hres : ∀ r ∈ pre ++ post, (env.viewOf r.hwnd).isSome = true) :
    (FlutterHostWindowController.run env ⟨false, [], [], []⟩ pre).initialized = false ∧
    (FlutterHostWindowController.run env ⟨false, [], [], []⟩ pre).delivered = [] ∧
    (FlutterHostWindowController.run env ⟨false, [], [], []⟩ pre).pendingMessages =
      pre.map (FlutterHostWindowController.toDelivered env) ∧
    (FlutterHostWindowController.Initialize
      (FlutterHostWindowController.run env ⟨false, [], [], []⟩ pre)).initialized = true ∧
    (FlutterHostWindowController.Initialize
      (FlutterHostWindowController.run env ⟨false, [], [], []⟩ pre)).delivered =
        pre.map (FlutterHostWindowController.toDelivered env) ∧
    (FlutterHostWindowController.Initialize
      (FlutterHostWindowController.run env ⟨false, [], [], []⟩ pre)).pendingMessages = [] ∧
    (FlutterHostWindowController.run env
      (FlutterHostWindowController.Initialize
        (FlutterHostWindowController.run env ⟨false, [], [], []⟩ pre)) post).delivered =
      (pre ++ post).map (FlutterHostWindowController.toDelivered env) ∧
    (FlutterHostWindowController.run env
      (FlutterHostWindowController.Initialize
        (FlutterHostWindowController.run env ⟨false, [], [], []⟩ pre)) post).pendingMessages
      = [] := by
  have hpre : ∀ r ∈ pre, (env.viewOf r.hwnd).isSome = true := fun r hr =>
    hres r (List.mem_append.mpr (Or.inl hr))
  have hpost : ∀ r ∈ post, (env.viewOf r.hwnd).isSome = true := fun r hr =>
    hres r (List.mem_append.mpr (Or.inr hr))
  obtain ⟨a1, a2, a3⟩ :=
    @FlutterHostWindowController.run_uninit env pre ⟨false, [], [], []⟩ rfl hpre
  have b1 : (FlutterHostWindowController.Initialize
      (FlutterHostWindowController.run env ⟨false, [], [], []⟩ pre)).initialized = true := rfl
  have b2 : (FlutterHostWindowController.Initialize
      (FlutterHostWindowController.run env ⟨false, [], [], []⟩ pre)).delivered =
      pre.map (FlutterHostWindowController.toDelivered env) := by
    show (FlutterHostWindowController.run env ⟨false, [], [], []⟩ pre).delivered ++
      (FlutterHostWindowController.run env ⟨false, [], [], []⟩ pre).pendingMessages = _
    rw [a3, a2]
    simp
  have b3 : (FlutterHostWindowController.Initialize
      (FlutterHostWindowController.run env ⟨false, [], [], []⟩ pre)).pendingMessages = [] := rfl
  obtain ⟨d1, d2, d3⟩ :=
    @FlutterHostWindowController.run_init env post
      (FlutterHostWindowController.Initialize
        (FlutterHostWindowController.run env ⟨false, [], [], []⟩ pre)) b1 hpost
  refine ⟨a1, by rw [a3], a2, b1, b2, b3, ?_, by rw [d2, b3]⟩
  rw [d3, b2, List.map_append]

/-- Witness for C1 at a concrete environment and concrete two message
lists. -/
theorem c1_initialize_buffering_replay_witness :
    (∀ r ∈ [RawMessage.mk 1 5 0 0] ++ [RawMessage.mk 2 6 1 2],
      (exampleCtrlEnv.viewOf r.hwnd).isSome = true) ∧
    (FlutterHostWindowController.run exampleCtrlEnv
      (FlutterHostWindowController.Initialize
        (FlutterHostWindowController.run exampleCtrlEnv ⟨false, [], [], []⟩
          [RawMessage.mk 1 5 0 0])) [RawMessage.mk 2 6 1 2]).delivered =
      ([RawMessage.mk 1 5 0 0] ++ [RawMessage.mk 2 6 1 2]).map
        (FlutterHostWindowController.toDelivered exampleCtrlEnv) :=
  ⟨by decide, (c1_initialize_buffering_replay exampleCtrlEnv
      [RawMessage.mk 1 5 0 0] [RawMessage.mk 2 6 1 2] (by decide)).2.2.2.2.2.2.1⟩

/-- C2: once the callback is installed, HandleMessage on a message whose
view resolves invokes the callback synchronously (the message is
appended to the invocation log) and returns the result the callback
wrote exactly when the callback marked the message handled; otherwise it
returns the empty outcome. -/
theorem c2_forward_result_iff_handled (env : ControllerEnv) (st : ControllerState)
    (r : RawMessage) (vid : Nat)
    (hinit : st.initialized = true) (hview : env.viewOf r.hwnd = some vid) :
    (FlutterHostWindowController.HandleMessage env st r).2 =
      (if (env.onMessage (mkWindowsMessage vid r)).handled
        then some (env.onMessage (mkWindowsMessage vid r)).result else none) ∧
    (FlutterHostWindowController.HandleMessage env st r).1.delivered =
      st.delivered ++ [mkWindowsMessage vid r] := by
  unfold FlutterHostWindowController.HandleMessage
  by_cases hnc : r.message = WM_NCDESTROY
  · simp [hnc, hview, hinit]
  · simp [hnc, hview, hinit]

/-- Witness for C2 at a concrete initialized state and message. -/
theorem c2_forward_result_iff_handled_witness :
    (ControllerState.mk true [] [] []).initialized = true ∧
    exampleCtrlEnv.viewOf 4 = some 7 ∧
    (FlutterHostWindowController.HandleMessage exampleCtrlEnv
      (ControllerState.mk true [] [] []) (RawMessage.mk 4 5 0 0)).2 = some 11 :=
  ⟨rfl, rfl, by
    have h := c2_forward_result_iff_handled exampleCtrlEnv
      (ControllerState.mk true [] [] []) (RawMessage.mk 4 5 0 0) 7 rfl rfl
    rw [h.1]; decide⟩

/- ### Placement solver lemmas and claim C9 -/

theorem placeAxis_bounds (ag pg : AxisGravity) (off f a0 a1 o0 o1 : Int) :
    o0 ≤ (placeAxis ag pg off f a0 a1 o0 o1).1 ∧
    (placeAxis ag pg off f a0 a1 o0 o1).2 ≤ o1 := by
  unfold placeAxis
  dsimp only
  split_ifs with h1 h2 h3
  · exact ⟨h1.1, h1.2⟩
  · exact ⟨h2.1, h2.2⟩
  · exact ⟨h3.1, h3.2⟩
  · exact ⟨le_max_right _ _, min_le_right _ _⟩

/-- C9: spec modelled placement solver property. For every positioner
(every anchor gravity and popup gravity combination and any offset),
every anchor rectangle fully inside the output rectangle and every frame
smaller than the output rectangle, the rectangle PlaceWindow returns
lies entirely within the output rectangle. -/
theorem c9_place_window_within_output (pos : WindowPositioner) (fs : ISize)
    (anchor owner output : IRect)
    (hal : output.left ≤ anchor.left) (har : anchor.right ≤ output.right)
    (hat : output.top ≤ anchor.top) (hab : anchor.bottom ≤ output.bottom)
    (hfw0 : 0 ≤ fs.w) (hfw : fs.w < output.right - output.left)
    (hfh0 : 0 ≤ fs.h) (hfh : fs.h < output.bottom - output.top) :
    output.left ≤ (PlaceWindow pos fs anchor owner output).left ∧
    (PlaceWindow pos fs anchor owner output).right ≤ output.right ∧
    output.top ≤ (PlaceWindow pos fs anchor owner output).top ∧
    (PlaceWindow pos fs anchor owner output).bottom ≤ output.bottom := by
  obtain ⟨hx1, hx2⟩ := placeAxis_bounds pos.anchorGravityX pos.popupGravityX pos.offsetX
    fs.w anchor.left anchor.right output.left output.right
  obtain ⟨hy1, hy2⟩ := placeAxis_bounds pos.anchorGravityY pos.popupGravityY pos.offsetY
    fs.h anchor.top anchor.bottom output.top output.bottom
  exact ⟨hx1, hx2, hy1, hy2⟩

/-- Witness for C9 at a concrete positioner, frame and rectangles; the
scenario of the specification with the anchor near the owner origin. -/
theorem c9_place_window_within_output_witness :
    (exampleOutput.left ≤ exampleAnchor.left ∧
      exampleAnchor.right ≤ exampleOutput.right ∧
      exampleOutput.top ≤ exampleAnchor.top ∧
      exampleAnchor.bottom ≤ exampleOutput.bottom ∧
      0 ≤ exampleFrame.w ∧ exampleFrame.w < exampleOutput.right - exampleOutput.left ∧
      0 ≤ exampleFrame.h ∧ exampleFrame.h < exampleOutput.bottom - exampleOutput.top) ∧
    (exampleOutput.left ≤
        (PlaceWindow examplePositioner exampleFrame exampleAnchor
          exampleOwnerRect exampleOutput).left ∧
      (PlaceWindow examplePositioner exampleFrame exampleAnchor
          exampleOwnerRect exampleOutput).right ≤ exampleOutput.right ∧
      exampleOutput.top ≤
        (PlaceWindow examplePositioner exampleFrame exampleAnchor
          exampleOwnerRect exampleOutput).top ∧
      (PlaceWindow examplePositioner exampleFrame exampleAnchor
          exampleOwnerRect exampleOutput).bottom ≤ exampleOutput.bottom) :=
  ⟨by decide, c9_place_window_within_output examplePositioner exampleFrame exampleAnchor
    exampleOwnerRect exampleOutput (by decide) (by decide) (by decide)
    (by decide) (by decide) (by decide) (by decide) (by decide)⟩

/- ### Constructor lemmas and claims C3, C8, C10 -/

theorem ctor_arch_fail {env : ConstructionEnv} {s : WindowCreationSettings}
    (h : archetypeChecksPass env s = false) :
    FlutterHostWindowCtor env s = { archetype_ := s.archetype } := by
  unfold FlutterHostWindowCtor
  simp [h]

theorem ctor_violation {env : ConstructionEnv} {s : WindowCreationSettings}
    (h : sizeConstraintViolation s = true) :
    FlutterHostWindowCtor env s = { archetype_ := s.archetype } := by
  unfold FlutterHostWindowCtor
  by_cases harch : archetypeChecksPass env s
  · simp [harch, h]
  · simp [harch]

theorem ctor_pass {env : ConstructionEnv} {s : WindowCreationSettings}
    (harch : archetypeChecksPass env s = true)
    (hviol : sizeConstraintViolation s = false) :
    FlutterHostWindowCtor env s =
      (if !env.viewCreated then
        ({ archetype_ := s.archetype,
           minSize_ := (dropInfBound s.minSize).map (scaleDSize env.scaleFactor),
           maxSize_ := (dropInfBound s.maxSize).map (scaleDSize env.scaleFactor) } :
          HostWindowConstruction)
      else if !env.classRegistered then
        { archetype_ := s.archetype,
          minSize_ := (dropInfBound s.minSize).map (scaleDSize env.scaleFactor),
          maxSize_ := (dropInfBound s.maxSize).map (scaleDSize env.scaleFactor) }
      else
        match env.nativeHandle with
        | none =>
          { archetype_ := s.archetype,
            minSize_ := (dropInfBound s.minSize).map (scaleDSize env.scaleFactor),
            maxSize_ := (dropInfBound s.maxSize).map (scaleDSize env.scaleFactor) }
        | some hwnd =>
          { archetype_ := s.archetype,
            minSize_ := (dropInfBound s.minSize).map (scaleDSize env.scaleFactor),
            maxSize_ := (dropInfBound s.maxSize).map (scaleDSize env.scaleFactor),
            state_ := some (s.state.getD WindowState.restored),
            windowHandle_ := some hwnd }) := by
  unfold FlutterHostWindowCtor
  simp [harch, hviol]

theorem ctor_maxSize_none {env : ConstructionEnv} {s : WindowCreationSettings}
    (h : s.maxSize = none) : (FlutterHostWindowCtor env s).maxSize_ = none := by
  by_cases harch : archetypeChecksPass env s
  · by_cases hviol : sizeConstraintViolation s
    · rw [ctor_violation hviol]
    · rw [ctor_pass harch (Bool.eq_false_iff.mpr hviol), h]
      rcases hE : env.nativeHandle with _ | hwnd <;>
        split_ifs <;> simp [hE, dropInfBound]
  · rw [ctor_arch_fail (Bool.eq_false_iff.mpr harch)]

/-- C3: every construction request with an invalid archetype, owner,
positioner or size constraint combination aborts immediately: the
constructed entity has no window handle, and registration reports the
zero failure identifier and leaves the registry untouched. -/
theorem c3_invalid_construction_fails (env : ConstructionEnv)
    (s : WindowCreationSettings) (st : ControllerState) (vid : Nat)
    (h : invalidConstructionRequest s) :
    (FlutterHostWindowCtor env s).windowHandle_ = none ∧
    FlutterHostWindowController.registerWindow st (FlutterHostWindowCtor env s) vid
      = (0, st) := by
  have hbase : FlutterHostWindowCtor env s = { archetype_ := s.archetype } := by
    rcases h with ⟨harch, hps | hps⟩ | ⟨harch, hps | hps⟩ | hviol
    · obtain ⟨v, hv⟩ := Option.isSome_iff_exists.mp hps
      exact ctor_arch_fail (by simp [archetypeChecksPass, harch, hv])
    · obtain ⟨v, hv⟩ := Option.isSome_iff_exists.mp hps
      exact ctor_arch_fail (by simp [archetypeChecksPass, harch, hv])
    · have hnone := Option.isNone_iff_eq_none.mp hps
      exact ctor_arch_fail (by simp [archetypeChecksPass, harch, hnone])
    · have hnone := Option.isNone_iff_eq_none.mp hps
      exact ctor_arch_fail (by simp [archetypeChecksPass, harch, hnone])
    · exact ctor_violation hviol
  rw [hbase]
  exact ⟨rfl, rfl⟩

/-- Witness for C3: a regular window given a positioner fails
construction and registration. -/
theorem c3_invalid_construction_fails_witness :
    invalidConstructionRequest c3Settings ∧
    (FlutterHostWindowCtor cEnvOk c3Settings).windowHandle_ = none :=
  ⟨by decide,
    (c3_invalid_construction_fails cEnvOk c3Settings ⟨false, [], [], []⟩ 5
      (by decide)).1⟩

/-- C8 counterexample: an infinite minimum width component makes
construction fail although every other value is valid, because the size
constraint validation runs on the original values before infinite
bounds are discarded; replacing the infinite component by a small
finite value makes the identical request succeed. This refutes the
claim that an infinite component never causes construction to fail. -/
theorem c8_inf_bound_fails_construction_cex :
    (FlutterHostWindowCtor cEnvOk c8SettingsInf).windowHandle_ = none ∧
    (FlutterHostWindowCtor cEnvOk c8SettingsFin).windowHandle_ = some 100 := by
  constructor <;> rfl

/-- C8 amended: infinite bound components are discarded only after the
minimum versus maximum validation, which compares the original values,
so an infinite minimum component compared against a finite maximum still
aborts construction; and when validation passes, a bound containing any
infinite component is discarded as a whole (its finite component does
not survive as a bound), while bounds without infinite components are
scaled and kept. -/
theorem c8_inf_bounds_discarded_after_validation (env : ConstructionEnv)
    (s : WindowCreationSettings) :
    (archetypeRequirementsOk s → sizeConstraintViolation s = false →
      (FlutterHostWindowCtor env s).minSize_ =
        (dropInfBound s.minSize).map (scaleDSize env.scaleFactor) ∧
      (FlutterHostWindowCtor env s).maxSize_ =
        (dropInfBound s.maxSize).map (scaleDSize env.scaleFactor)) ∧
    (sizeConstraintViolation s = true →
      (FlutterHostWindowCtor env s).windowHandle_ = none) := by
  constructor
  · intro harch hviol
    have hpass : archetypeChecksPass env s = true := by
      rcases harch with ⟨ha, hp, hq⟩ | ⟨ha, hp, hq⟩
      · simp [archetypeChecksPass, ha, hp, hq]
      · simp [archetypeChecksPass, ha, hp, hq]
    rw [ctor_pass hpass hviol]
    split_ifs
    · exact ⟨rfl, rfl⟩
    · exact ⟨rfl, rfl⟩
    · rcases hE : env.nativeHandle with _ | hwnd <;> simp [hE]
  · intro hviol
    rw [ctor_violation hviol]

/-- Witness for C8 amended: a minimum bound with an infinite height
component and no maximum bound passes validation, and the whole minimum
bound is discarded, including its finite width component. -/
theorem c8_inf_bounds_discarded_after_validation_witness :
    archetypeRequirementsOk
      { archetype := .regular, size := ⟨.fin 800, .fin 600⟩,
        minSize := some ⟨.fin 5, .inf⟩ } ∧
    sizeConstraintViolation
      { archetype := .regular, size := ⟨.fin 800, .fin 600⟩,
        minSize := some ⟨.fin 5, .inf⟩ } = false ∧
    (FlutterHostWindowCtor cEnvOk
      { archetype := .regular, size := ⟨.fin 800, .fin 600⟩,
        minSize := some ⟨.fin 5, .inf⟩ }).minSize_ = none :=
  ⟨Or.inl ⟨rfl, rfl, rfl⟩, rfl, by
    have h := (c8_inf_bounds_discarded_after_validation cEnvOk
      { archetype := .regular, size := ⟨.fin 800, .fin 600⟩,
        minSize := some ⟨.fin 5, .inf⟩ }).1 (Or.inl ⟨rfl, rfl, rfl⟩) rfl
    rw [h.1]; rfl⟩

/-- C10: the settings CreateWindow underscore builds always carry a
minimum size (the request minimum is forwarded even when zero), carry a
maximum size exactly when both request maximum components are nonzero,
and a request with a zero maximum component produces a window with no
maximum bound at all. -/
theorem c10_create_window_min_max_forwarding (env : ConstructionEnv)
    (r : WindowCreationRequest) :
    (creationSettingsOfRequest r).minSize = some ⟨r.minWidth, r.minHeight⟩ ∧
    (creationSettingsOfRequest r).maxSize =
      (if r.maxWidth ≠ Dbl.fin 0 ∧ r.maxHeight ≠ Dbl.fin 0
        then some ⟨r.maxWidth, r.maxHeight⟩ else none) ∧
    ((r.maxWidth = Dbl.fin 0 ∨ r.maxHeight = Dbl.fin 0) →
      (FlutterHostWindowCtor env (creationSettingsOfRequest r)).maxSize_ = none) := by
  refine ⟨rfl, rfl, fun hz => ?_⟩
  refine ctor_maxSize_none ?_
  show (if r.maxWidth ≠ Dbl.fin 0 ∧ r.maxHeight ≠ Dbl.fin 0
    then some (DSize.mk r.maxWidth r.maxHeight) else none) = none
  rcases hz with hz | hz <;> simp [hz]

/-- Witness for C10 at a request with exactly one zero maximum
component. -/
theorem c10_create_window_min_max_forwarding_witness :
    ((Dbl.fin 0 : Dbl) = Dbl.fin 0 ∨ (Dbl.fin 5 : Dbl) = Dbl.fin 0) ∧
    (FlutterHostWindowCtor cEnvOk (creationSettingsOfRequest
      { width := .fin 800, height := .fin 600, maxWidth := .fin 0,
        maxHeight := .fin 5 })).maxSize_ = none :=
  ⟨Or.inl rfl,
    (c10_create_window_min_max_forwarding cEnvOk
      { width := .fin 800, height := .fin 600, maxWidth := .fin 0,
        maxHeight := .fin 5 }).2.2 (Or.inl rfl)⟩

/- ### Window tree lemmas -/

theorem updFn_winState {h : Nat} {f : HostWindow → HostWindow}
    (hs : ∀ e, (f e).winState = e.winState) (e : HostWindow) :
    (updFn h f e).winState = e.winState := by
  unfold updFn; split <;> simp [hs]

theorem lookup_map_winState_update {l : List HostWindow} {h k : Nat}
    {f : HostWindow → HostWindow}
    (hf : ∀ e, (f e).handle = e.handle) (hs : ∀ e, (f e).winState = e.winState) :
    (lookupWin (updateWin l h f) k).map HostWindow.winState =
      (lookupWin l k).map HostWindow.winState := by
  rw [lookupWin_update hf]
  cases hl : lookupWin l k with
  | none => rfl
  | some e =>
    show some ((updFn h f e).winState) = some e.winState
    rw [updFn_winState hs]

theorem isPopupAt_true_of {ws : List HostWindow} {h : Nat} {e : HostWindow}
    (he : lookupWin ws h = some e) (harch : e.archetype = WindowArchetype.popup) :
    isPopupAt ws h = true := by
  unfold isPopupAt; rw [he]; simp [harch]

theorem isPopupAt_false_of_regular {ws : List HostWindow} {h : Nat} {e : HostWindow}
    (he : lookupWin ws h = some e) (harch : e.archetype = WindowArchetype.regular) :
    isPopupAt ws h = false := by
  unfold isPopupAt; rw [he]; simp [harch]

theorem isPopupAt_false_of_none {ws : List HostWindow} {h : Nat}
    (he : lookupWin ws h = none) : isPopupAt ws h = false := by
  unfold isPopupAt; rw [he]

theorem isPopupAt_removeWin_of_false {ws : List HostWindow} {h x : Nat}
    (hp : isPopupAt ws h = false) :
    isPopupAt (removeWin ws h) x = isPopupAt ws x := by
  rw [isPopupAt_removeWin]
  by_cases hx : x = h
  · rw [if_pos hx, hx, hp]
  · rw [if_neg hx]

namespace FlutterHostWindow

theorem destroyUnlink_none {ws : List HostWindow} {h : Nat}
    (he : lookupWin ws h = none) : destroyUnlink ws h = ws := by
  unfold destroyUnlink; rw [he]

theorem destroyUnlink_regular {ws : List HostWindow} {h : Nat} {e : HostWindow}
    (he : lookupWin ws h = some e) (harch : e.archetype = WindowArchetype.regular) :
    destroyUnlink ws h = ws := by
  unfold destroyUnlink; rw [he]; simp [harch]

theorem destroyUnlink_no_owner {ws : List HostWindow} {h : Nat} {e : HostWindow}
    (he : lookupWin ws h = some e) (harch : e.archetype = WindowArchetype.popup)
    (how : e.ownerHandle = none) : destroyUnlink ws h = ws := by
  unfold destroyUnlink; rw [he]; simp [harch, how]

theorem destroyUnlink_owner_gone {ws : List HostWindow} {h oh : Nat} {e : HostWindow}
    (he : lookupWin ws h = some e) (harch : e.archetype = WindowArchetype.popup)
    (how : e.ownerHandle = some oh) (ho : lookupWin ws oh = none) :
    destroyUnlink ws h = ws := by
  unfold destroyUnlink; rw [he]; simp [harch, how, ho]

theorem destroyUnlink_owner {ws : List HostWindow} {h oh : Nat} {e o : HostWindow}
    (he : lookupWin ws h = some e) (harch : e.archetype = WindowArchetype.popup)
    (how : e.ownerHandle = some oh) (ho : lookupWin ws oh = some o) :
    destroyUnlink ws h = updateWin ws oh (unlinkPopupFrom h) := by
  unfold destroyUnlink; rw [he]; simp [harch, how, ho]

theorem destroyFocus_owner {w : World} {h oh : Nat} {e o : HostWindow}
    (he : lookupWin w.windows h = some e)
    (harch : e.archetype = WindowArchetype.popup)
    (how : e.ownerHandle = some oh) (ho : lookupWin w.windows oh = some o) :
    destroyFocus w h = (match o.childContent with
      | some c => some c
      | none => w.focus) := by
  unfold destroyFocus; rw [he]; simp [harch, how, ho]

end FlutterHostWindow

/-- C7 counterexample: a native maximize notification delivered to a
regular window after its first show is not mirrored into the stored
state member: the stored state remains Restored while the actual native
state is Maximized, refuting the claim that the stored state always
equals the native state and that every native notification is mirrored
back. -/
theorem c7_native_state_not_mirrored_cex :
    World.winStateAt (World.nativeStateChange exampleWorld3 1 WindowState.maximized) 1 =
      some (some WindowState.restored) ∧
    World.nativeStateAt (World.nativeStateChange exampleWorld3 1 WindowState.maximized) 1 =
      some WindowState.maximized := by decide

/-- C7 amended: after construction the stored state member changes only
through an explicit SetState call; no branch of the native message
handler writes it (in particular the native minimize, maximize and
restore notifications arriving through the size message leave it
unchanged, so it can diverge from the actual native state). -/
theorem c7_stored_state_changes_only_via_set_state :
    (∀ (w : World) (h : Nat) (m : WinMsg) (k : Nat),
      World.winStateAt (FlutterHostWindow.HandleMessage w h m) k = World.winStateAt w k) ∧
    (∀ (w : World) (h : Nat) (s : WindowState) (k : Nat),
      World.winStateAt (FlutterHostWindow.SetState w h s) k =
        if k = h then (lookupWin w.windows k).map (fun _ => some s)
        else World.winStateAt w k) := by
  constructor
  · intro w h m k
    unfold FlutterHostWindow.HandleMessage
    cases he : lookupWin w.windows h with
    | none => rfl
    | some e =>
      cases m with
      | destroy =>
        show World.winStateAt (FlutterHostWindow.handleDestroy w h) k = _
        unfold World.winStateAt FlutterHostWindow.handleDestroy
        show (lookupWin (FlutterHostWindow.destroyUnlink w.windows h) k).map _ = _
        rcases harch : e.archetype with _ | _
        · rw [FlutterHostWindow.destroyUnlink_regular he harch]
        · rcases how : e.ownerHandle with _ | oh
          · rw [FlutterHostWindow.destroyUnlink_no_owner he harch how]
          · rcases ho : lookupWin w.windows oh with _ | o
            · rw [FlutterHostWindow.destroyUnlink_owner_gone he harch how ho]
            · rw [FlutterHostWindow.destroyUnlink_owner he harch how ho]
              exact lookup_map_winState_update (fun _ => rfl) (fun _ => rfl)
      | dpiChanged suggested => rfl
      | showWindow shown lpz =>
        dsimp only
        by_cases hc : (shown && lpz && e.pendingShow) = true
        · rw [if_pos hc]
          exact lookup_map_winState_update (fun _ => rfl) (fun _ => rfl)
        · rw [if_neg hc]
      | getMinMaxInfo => rfl
      | size mode => rfl
      | activate active =>
        dsimp only
        by_cases hc : active = true
        · rw [if_pos hc]
          cases e.childContent <;> rfl
        · rw [if_neg hc]
      | ncActivate active => rfl
      | colorizationChanged => rfl
      | other code => rfl
  · intro w h s k
    by_cases hk : k = h
    · subst hk
      unfold FlutterHostWindow.SetState World.winStateAt
      dsimp only
      rw [if_pos rfl]
      rw [@lookupWin_update_self w.windows k (applyState s) (fun _ => rfl)]
      cases lookupWin w.windows k <;> rfl
    · unfold FlutterHostWindow.SetState World.winStateAt
      dsimp only
      rw [if_neg hk]
      rw [@lookupWin_update_ne w.windows h k (applyState s) (fun _ => rfl) hk]

/-- C4 counterexample: destroying one of two popups owned by the same
window restores focus to the child content of the owner although the
popup count of the owner drops to one, not zero; this refutes the
claimed equivalence between focus restoration and the count reaching
zero. -/
theorem c4_focus_restored_with_popups_remaining_cex :
    (FlutterHostWindow.handleDestroy exampleWorld3 2).focus = some 10 ∧
    exampleWorld3.focus = none ∧
    (lookupWin (FlutterHostWindow.handleDestroy exampleWorld3 2).windows 1).map
      HostWindow.numOwnedPopups = some 1 := by decide

/-- C4 amended: for a popup with a live owner, the destroy notification
unlinks the popup from the owned set of the owner, decrements the popup
count of the owner by exactly one, and restores focus to the child
content of the owner whenever that content exists, regardless of the
remaining popup count. -/
theorem c4_destroy_unlink_decrement_focus (w : World) (h oh : Nat)
    (e o : HostWindow) (hwf : WF w)
    (he : lookupWin w.windows h = some e)
    (harch : e.archetype = WindowArchetype.popup)
    (how : e.ownerHandle = some oh)
    (ho : lookupWin w.windows oh = some o) :
    ∃ o', lookupWin (FlutterHostWindow.handleDestroy w h).windows oh = some o' ∧
      o'.ownedWindows = eraseNat o.ownedWindows h ∧
      h ∉ o'.ownedWindows ∧
      o'.numOwnedPopups + 1 = o.numOwnedPopups ∧
      (FlutterHostWindow.handleDestroy w h).focus =
        (match o.childContent with
          | some c => some c
          | none => w.focus) := by
  obtain ⟨hnodup, hownNodup, hback, hfwd, hcount, hreg, hself⟩ := hwf
  have hoh : o.handle = oh := lookupWin_handle ho
  have hmem_o : o ∈ w.windows := lookupWin_mem ho
  have hmem_e : e ∈ w.windows := lookupWin_mem he
  have hhe : e.handle = h := lookupWin_handle he
  have hmemowned : h ∈ o.ownedWindows := by
    have := hfwd e hmem_e o hmem_o (by rw [how, hoh])
    rw [hhe] at this
    exact this
  have hpopup : isPopupAt w.windows h = true := isPopupAt_true_of he harch
  have hnum : o.numOwnedPopups = countPopups w.windows o.ownedWindows :=
    hcount o hmem_o
  have herase := countPopups_eraseNat
    (hownNodup o hmem_o) hmemowned hpopup
  refine ⟨unlinkPopupFrom h o, ?_, rfl, ?_, ?_, ?_⟩
  · show lookupWin (FlutterHostWindow.destroyUnlink w.windows h) oh = _
    rw [FlutterHostWindow.destroyUnlink_owner he harch how ho]
    rw [@lookupWin_update_self w.windows oh (unlinkPopupFrom h) (fun _ => rfl)]
    rw [ho]
    rfl
  · intro hc
    exact (mem_eraseNat.mp hc).2 rfl
  · show o.numOwnedPopups - 1 + 1 = o.numOwnedPopups
    omega
  · exact FlutterHostWindow.destroyFocus_owner he harch how ho

/-- Witness for C4 amended on the concrete world with two popups. -/
theorem c4_destroy_unlink_decrement_focus_witness :
    WF exampleWorld3 ∧
    (FlutterHostWindow.handleDestroy exampleWorld3 2).focus =
      (match ownerEnt3.childContent with
        | some c => some c
        | none => exampleWorld3.focus) :=
  ⟨by decide, by
    obtain ⟨o', h1, h2, h3, h4, h5⟩ := c4_destroy_unlink_decrement_focus
      exampleWorld3 2 1 popupEnt2 ownerEnt3 (by decide) (by decide) rfl rfl (by decide)
    exact h5⟩

/- ### Cascading close: invariant preservation machinery -/

theorem isPopupAt_false_of_count_zero {ws : List HostWindow} : ∀ {L : List Nat},
    countPopups ws L = 0 → ∀ x ∈ L, isPopupAt ws x = false := by
  intro L
  induction L with
  | nil => intro _ x hx; simp at hx
  | cons a t ih =>
    intro hz x hx
    rw [countPopups_cons] at hz
    by_cases ha : isPopupAt ws a
    · rw [if_pos ha] at hz; omega
    · rw [if_neg ha] at hz
      rcases List.mem_cons.mp hx with rfl | hx'
      · exact Bool.eq_false_iff.mpr ha
      · exact ih (by omega) x hx'

theorem countInvAll_destroyNative (w : World) (h : Nat) (hwf : WF w) :
    countInvAll (FlutterHostWindow.destroyNative w h) := by
  obtain ⟨hnodup, hown, hback, hfwd, hcount, hreg, hself⟩ := hwf
  intro e' hmem
  change e' ∈ removeWin (FlutterHostWindow.destroyUnlink w.windows h) h at hmem
  change e'.numOwnedPopups =
    countPopups (removeWin (FlutterHostWindow.destroyUnlink w.windows h) h) e'.ownedWindows
  rcases hl : lookupWin w.windows h with _ | e
  · rw [FlutterHostWindow.destroyUnlink_none hl] at hmem ⊢
    have hpf : isPopupAt w.windows h = false := isPopupAt_false_of_none hl
    obtain ⟨hm0, _⟩ := mem_removeWin.mp hmem
    rw [hcount e' hm0]
    exact (countPopups_congr fun x _ => isPopupAt_removeWin_of_false hpf).symm
  · have hhe : e.handle = h := lookupWin_handle hl
    have hmem_e : e ∈ w.windows := lookupWin_mem hl
    rcases ha : e.archetype with _ | _
    · rw [FlutterHostWindow.destroyUnlink_regular hl ha] at hmem ⊢
      have hpf : isPopupAt w.windows h = false := isPopupAt_false_of_regular hl ha
      obtain ⟨hm0, _⟩ := mem_removeWin.mp hmem
      rw [hcount e' hm0]
      exact (countPopups_congr fun x _ => isPopupAt_removeWin_of_false hpf).symm
    · rcases ho : e.ownerHandle with _ | oh
      · rw [FlutterHostWindow.destroyUnlink_no_owner hl ha ho] at hmem ⊢
        obtain ⟨hm0, _⟩ := mem_removeWin.mp hmem
        have hnotin : h ∉ e'.ownedWindows := by
          intro hc
          have hb := hback e' hm0 h hc
          rw [hl] at hb
          simp only [Option.map_some'] at hb
          rw [ho] at hb
          cases hb
        rw [hcount e' hm0]
        refine (countPopups_congr fun x hx => ?_).symm
        have hxh : ¬ x = h := fun hq => hnotin (hq ▸ hx)
        rw [isPopupAt_removeWin, if_neg hxh]
      · rcases hoo : lookupWin w.windows oh with _ | o
        · rw [FlutterHostWindow.destroyUnlink_owner_gone hl ha ho hoo] at hmem ⊢
          obtain ⟨hm0, _⟩ := mem_removeWin.mp hmem
          have hnotin : h ∉ e'.ownedWindows := by
            intro hc
            have hb := hback e' hm0 h hc
            rw [hl] at hb
            simp only [Option.map_some'] at hb
            rw [ho] at hb
            have hohe : oh = e'.handle := Option.some.inj (Option.some.inj hb)
            exact lookupWin_eq_none.mp hoo e' hm0 hohe.symm
          rw [hcount e' hm0]
          refine (countPopups_congr fun x hx => ?_).symm
          have hxh : ¬ x = h := fun hq => hnotin (hq ▸ hx)
          rw [isPopupAt_removeWin, if_neg hxh]
        · rw [FlutterHostWindow.destroyUnlink_owner hl ha ho hoo] at hmem ⊢
          have hohandle : o.handle = oh := lookupWin_handle hoo
          have hmem_o : o ∈ w.windows := lookupWin_mem hoo
          have hmemowned : h ∈ o.ownedWindows := by
            have := hfwd e hmem_e o hmem_o (by rw [ho, hohandle])
            rw [hhe] at this
            exact this
          have hpop : isPopupAt w.windows h = true := isPopupAt_true_of hl ha
          have herase := countPopups_eraseNat (hown o hmem_o) hmemowned hpop
          obtain ⟨hm2, hneh⟩ := mem_removeWin.mp hmem
          obtain ⟨e0, hm0, rfl⟩ := mem_updateWin.mp hm2
          by_cases hc : e0.handle = oh
          · have he0 : e0 = o := by
              have hlk := mem_handle_lookup hnodup hm0
              rw [hc, hoo] at hlk
              exact (Option.some.inj hlk).symm
            subst he0
            simp only [updFn, if_pos hc, unlinkPopupFrom]
            have hcongr : countPopups
                (removeWin (updateWin w.windows oh (unlinkPopupFrom h)) h)
                (eraseNat e0.ownedWindows h) =
                countPopups w.windows (eraseNat e0.ownedWindows h) := by
              refine countPopups_congr fun x hx => ?_
              have hxh : ¬ x = h := (mem_eraseNat.mp hx).2
              rw [isPopupAt_removeWin, if_neg hxh,
                @isPopupAt_updateWin w.windows oh x (unlinkPopupFrom h)
                  (fun _ => rfl) (fun _ => rfl)]
            rw [hcongr]
            have hnum_o := hcount e0 hmem_o
            omega
          · simp only [updFn, if_neg hc]
            have hnotin : h ∉ e0.ownedWindows := by
              intro hcc
              have hb := hback e0 hm0 h hcc
              rw [hl] at hb
              simp only [Option.map_some'] at hb
              rw [ho] at hb
              exact hc (Option.some.inj (Option.some.inj hb)).symm
            rw [hcount e0 hm0]
            refine (countPopups_congr fun x hx => ?_).symm
            have hxh : ¬ x = h := fun hq => hnotin (hq ▸ hx)
            rw [isPopupAt_removeWin, if_neg hxh,
              @isPopupAt_updateWin w.windows oh x (unlinkPopupFrom h)
                (fun _ => rfl) (fun _ => rfl)]

theorem updFn_ownedWindows {h : Nat} {f : HostWindow → HostWindow}
    (ho : ∀ e, (f e).ownedWindows = e.ownedWindows) (e : HostWindow) :
    (updFn h f e).ownedWindows = e.ownedWindows := by
  unfold updFn; split <;> simp [ho]

theorem updFn_numOwnedPopups {h : Nat} {f : HostWindow → HostWindow}
    (hn : ∀ e, (f e).numOwnedPopups = e.numOwnedPopups) (e : HostWindow) :
    (updFn h f e).numOwnedPopups = e.numOwnedPopups := by
  unfold updFn; split <;> simp [hn]

theorem updFn_ownerHandle {h : Nat} {f : HostWindow → HostWindow}
    (how : ∀ e, (f e).ownerHandle = e.ownerHandle) (e : HostWindow) :
    (updFn h f e).ownerHandle = e.ownerHandle := by
  unfold updFn; split <;> simp [how]

theorem loopInv_update {h : Nat} {L0 : List Nat} {w : World} {P : List Nat}
    {k : Nat} {f : HostWindow → HostWindow}
    (hf : ∀ e, (f e).handle = e.handle)
    (ha : ∀ e, (f e).archetype = e.archetype)
    (how : ∀ e, (f e).ownerHandle = e.ownerHandle)
    (ho : ∀ e, (f e).ownedWindows = e.ownedWindows)
    (hn : ∀ e, (f e).numOwnedPopups = e.numOwnedPopups)
    (inv : LoopInv h L0 w P) :
    LoopInv h L0 { w with windows := updateWin w.windows k f } P := by
  obtain ⟨hnodup, ⟨self, hself, hL0, hnum⟩, hzero, hpnodup, hpend, hothers⟩ := inv
  refine ⟨?_, ⟨updFn k f self, ?_, ?_, ?_⟩, ?_, hpnodup, ?_, ?_⟩
  · show (List.map HostWindow.handle (updateWin w.windows k f)).Nodup
    rw [@handles_updateWin k f hf w.windows]
    exact hnodup
  · show lookupWin (updateWin w.windows k f) h = some (updFn k f self)
    rw [lookupWin_update hf, hself]
    rfl
  · rw [@updFn_ownedWindows k f ho self]
    exact hL0
  · rw [@updFn_numOwnedPopups k f hn self]
    exact hnum
  · show countPopups (updateWin w.windows k f) L0 = 0
    refine (countPopups_congr fun x _ => ?_).trans hzero
    exact @isPopupAt_updateWin w.windows k x f hf ha
  · intro p hp
    obtain ⟨hph, ⟨pe, hpe, hpeArch, hpeOwn⟩, hnotin⟩ := hpend p hp
    refine ⟨hph, ⟨updFn k f pe, ?_, ?_, ?_⟩, ?_⟩
    · show lookupWin (updateWin w.windows k f) p = some (updFn k f pe)
      rw [lookupWin_update hf, hpe]
      rfl
    · rw [@updFn_archetype k f ha pe]
      exact hpeArch
    · rw [@updFn_ownerHandle k f how pe]
      exact hpeOwn
    · intro e' he' hpm
      obtain ⟨e0, he0, rfl⟩ := mem_updateWin.mp he'
      rw [@updFn_ownedWindows k f ho e0] at hpm
      exact hnotin e0 he0 hpm
  · intro e' he' hne
    obtain ⟨e0, he0, rfl⟩ := mem_updateWin.mp he'
    have hne0 : e0.handle ≠ h := by
      intro hq
      exact hne ((@updFn_handle k f hf e0).trans hq)
    rw [@updFn_numOwnedPopups k f hn e0, @updFn_ownedWindows k f ho e0,
      hothers e0 he0 hne0]
    refine countPopups_congr fun x _ => ?_
    exact (@isPopupAt_updateWin w.windows k x f hf ha).symm

theorem closeStep_post {h : Nat} {L0 : List Nat} {w : World} {q : List Nat}
    {p : Nat} {P : List Nat}
    (inv : LoopInv h L0 w P) (hp : p ∈ P) :
    LoopInv h L0 (FlutterHostWindow.closeStep (w, q) p).1 P ∧
    (FlutterHostWindow.closeStep (w, q) p).2 = q ++ [p] := by
  have hinv2 := inv
  obtain ⟨-, ⟨self, hself, -, -⟩, -, -, hpend, -⟩ := hinv2
  obtain ⟨hph, ⟨pe, hpe, hpeArch, hpeOwn⟩, -⟩ := hpend p hp
  have hstep : FlutterHostWindow.closeStep (w, q) p =
      ({ w with
          windows := updateWin (updateWin w.windows h (setRedrawFlag false)) h
            (setRedrawFlag true) },
        q ++ [p]) := by
    unfold FlutterHostWindow.closeStep
    dsimp only
    rw [hpe]
    dsimp only
    rw [hpeOwn]
    dsimp only
    rw [hself]
  rw [hstep]
  refine ⟨?_, rfl⟩
  have inv1 := @loopInv_update h L0 w P h (setRedrawFlag false)
    (fun _ => rfl) (fun _ => rfl) (fun _ => rfl) (fun _ => rfl) (fun _ => rfl) inv
  exact @loopInv_update h L0
    { w with windows := updateWin w.windows h (setRedrawFlag false) } P h
    (setRedrawFlag true)
    (fun _ => rfl) (fun _ => rfl) (fun _ => rfl) (fun _ => rfl) (fun _ => rfl) inv1

theorem closeLoop_post {h : Nat} {L0 : List Nat} {P : List Nat} :
    ∀ (L : List Nat) (w : World) (q : List Nat),
    LoopInv h L0 w P → (∀ p ∈ L, p ∈ P) →
    LoopInv h L0 (L.foldl FlutterHostWindow.closeStep (w, q)).1 P ∧
    (L.foldl FlutterHostWindow.closeStep (w, q)).2 = q ++ L := by
  intro L
  induction L with
  | nil =>
    intro w q inv _
    exact ⟨inv, by simp⟩
  | cons p t ih =>
    intro w q inv hL
    obtain ⟨inv1, hq1⟩ := closeStep_post inv (hL p (List.mem_cons_self _ _))
    have hpair : FlutterHostWindow.closeStep (w, q) p =
        ((FlutterHostWindow.closeStep (w, q) p).1, q ++ [p]) := by
      rw [← hq1]
    have hfold : (p :: t).foldl FlutterHostWindow.closeStep (w, q) =
        t.foldl FlutterHostWindow.closeStep
          ((FlutterHostWindow.closeStep (w, q) p).1, q ++ [p]) := by
      rw [List.foldl_cons, hpair]
    rw [hfold]
    obtain ⟨invF, hqF⟩ := ih ((FlutterHostWindow.closeStep (w, q) p).1) (q ++ [p])
      inv1 (fun x hx => hL x (List.mem_cons_of_mem _ hx))
    refine ⟨invF, ?_⟩
    rw [hqF]
    simp

theorem destroyStep_inv {h : Nat} {L0 : List Nat} {w : World} {p : Nat} {rest : List Nat}
    (inv : LoopInv h L0 w (p :: rest)) :
    LoopInv h L0 (FlutterHostWindow.destroyNative w p) rest ∧
    lookupWin (FlutterHostWindow.destroyNative w p).windows p = none := by
  obtain ⟨hnodup, ⟨self, hself, hL0, hnum⟩, hzero, hpnodup, hpend, hothers⟩ := inv
  obtain ⟨hph, ⟨pe, hpe, hpeArch, hpeOwn⟩, hnotin⟩ := hpend p (List.mem_cons_self _ _)
  have hselfmem : self ∈ w.windows := lookupWin_mem hself
  have hpL0 : p ∉ L0 := by
    have hni := hnotin self hselfmem
    rw [hL0] at hni
    exact hni
  have hhp : ¬ h = p := fun hq => hph hq.symm
  have hunlink := FlutterHostWindow.destroyUnlink_owner hpe hpeArch hpeOwn hself
  have hstep : FlutterHostWindow.destroyNative w p =
      { windows := removeWin (updateWin w.windows h (unlinkPopupFrom p)) p,
        focus := FlutterHostWindow.destroyFocus w p } := by
    show { windows := removeWin (FlutterHostWindow.destroyUnlink w.windows p) p,
           focus := FlutterHostWindow.destroyFocus w p } =
         ({ windows := removeWin (updateWin w.windows h (unlinkPopupFrom p)) p,
            focus := FlutterHostWindow.destroyFocus w p } : World)
    rw [hunlink]
  rw [hstep]
  have hlk_ne : ∀ k, ¬ k = h → ¬ k = p →
      lookupWin (removeWin (updateWin w.windows h (unlinkPopupFrom p)) p) k =
      lookupWin w.windows k := by
    intro k hkh hkp
    rw [lookupWin_remove, if_neg hkp,
      @lookupWin_update_ne w.windows h k (unlinkPopupFrom p) (fun _ => rfl) hkh]
  have hlk_h : lookupWin (removeWin (updateWin w.windows h (unlinkPopupFrom p)) p) h =
      some (unlinkPopupFrom p self) := by
    rw [lookupWin_remove, if_neg hhp,
      @lookupWin_update_self w.windows h (unlinkPopupFrom p) (fun _ => rfl), hself]
    rfl
  have hlk_p : lookupWin (removeWin (updateWin w.windows h (unlinkPopupFrom p)) p) p
      = none := by
    rw [lookupWin_remove, if_pos rfl]
  have hpop_same : ∀ x, ¬ x = p →
      isPopupAt (removeWin (updateWin w.windows h (unlinkPopupFrom p)) p) x =
      isPopupAt w.windows x := by
    intro x hxp
    rw [isPopupAt_removeWin, if_neg hxp,
      @isPopupAt_updateWin w.windows h x (unlinkPopupFrom p) (fun _ => rfl) (fun _ => rfl)]
  have hchase : ∀ e', e' ∈ removeWin (updateWin w.windows h (unlinkPopupFrom p)) p →
      ∃ e0 ∈ w.windows, e'.handle = e0.handle ∧
        (e'.ownedWindows = e0.ownedWindows ∨
          e'.ownedWindows = eraseNat e0.ownedWindows p) ∧
        (¬ e0.handle = h → e' = e0) := by
    intro e' he'
    obtain ⟨he2, hne2p⟩ := mem_removeWin.mp he'
    obtain ⟨e0, he0, rfl⟩ := mem_updateWin.mp he2
    by_cases hc : e0.handle = h
    · refine ⟨e0, he0, ?_, ?_, fun hno => absurd hc hno⟩
      · simp [updFn, hc, unlinkPopupFrom]
      · right
        simp [updFn, hc, unlinkPopupFrom]
    · refine ⟨e0, he0, ?_, ?_, fun _ => ?_⟩
      · simp [updFn, hc]
      · left
        simp [updFn, hc]
      · simp [updFn, hc]
  refine ⟨⟨?_, ?_, ?_, ?_, ?_, ?_⟩, hlk_p⟩
  · show (List.map HostWindow.handle
      (removeWin (updateWin w.windows h (unlinkPopupFrom p)) p)).Nodup
    refine List.Nodup.sublist ((removeWin_sublist _ _).map HostWindow.handle) ?_
    rw [@handles_updateWin h (unlinkPopupFrom p) (fun _ => rfl) w.windows]
    exact hnodup
  · refine ⟨unlinkPopupFrom p self, hlk_h, ?_, ?_⟩
    · show eraseNat self.ownedWindows p = L0
      rw [hL0, eraseNat_of_not_mem hpL0]
    · show self.numOwnedPopups - 1 = rest.length
      rw [hnum]
      simp
  · refine (countPopups_congr fun x hx => ?_).trans hzero
    exact hpop_same x fun hq => hpL0 (hq ▸ hx)
  · exact (List.nodup_cons.mp hpnodup).2
  · intro q hq
    obtain ⟨hqh, ⟨qe, hqe, hqeArch, hqeOwn⟩, hqnotin⟩ :=
      hpend q (List.mem_cons_of_mem _ hq)
    have hqp : ¬ q = p := by
      intro hqp
      exact (List.nodup_cons.mp hpnodup).1 (hqp ▸ hq)
    refine ⟨hqh, ⟨qe, ?_, hqeArch, hqeOwn⟩, ?_⟩
    · rw [hlk_ne q hqh hqp, hqe]
    · intro e' he' hqmem
      obtain ⟨e0, he0, hhandle, howned, heq⟩ := hchase e' he'
      rcases howned with howned | howned
      · rw [howned] at hqmem
        exact hqnotin e0 he0 hqmem
      · rw [howned] at hqmem
        exact hqnotin e0 he0 (mem_eraseNat.mp hqmem).1
  · intro e' he' hne
    obtain ⟨e0, he0, hhandle, howned, heq⟩ := hchase e' he'
    have hne0 : ¬ e0.handle = h := by
      intro hq
      exact hne (hhandle.trans hq)
    obtain rfl := heq hne0
    rw [hothers e' he0 hne]
    refine (countPopups_congr fun x hx => ?_).symm
    have hxp : ¬ x = p := by
      intro hq
      exact hnotin e' he0 (hq ▸ hx)
    exact hpop_same x hxp

theorem lookupNone_update {l : List HostWindow} {k q : Nat} {f : HostWindow → HostWindow}
    (hf : ∀ e, (f e).handle = e.handle) (hq : lookupWin l q = none) :
    lookupWin (updateWin l k f) q = none := by
  rw [lookupWin_update hf, hq]
  rfl

theorem lookupNone_remove {l : List HostWindow} {k q : Nat}
    (hq : lookupWin l q = none) : lookupWin (removeWin l k) q = none := by
  rw [lookupWin_remove]
  by_cases hc : q = k
  · rw [if_pos hc]
  · rw [if_neg hc]; exact hq

theorem lookupNone_destroyUnlink {ws : List HostWindow} {p q : Nat}
    (hq : lookupWin ws q = none) :
    lookupWin (FlutterHostWindow.destroyUnlink ws p) q = none := by
  unfold FlutterHostWindow.destroyUnlink
  cases hp : lookupWin ws p with
  | none => exact hq
  | some pe =>
    dsimp only
    cases ha : pe.archetype with
    | regular => exact hq
    | popup =>
      dsimp only
      cases how : pe.ownerHandle with
      | none => exact hq
      | some oh =>
        dsimp only
        cases ho : lookupWin ws oh with
        | none => exact hq
        | some o =>
          exact @lookupNone_update ws oh q (unlinkPopupFrom p) (fun _ => rfl) hq

theorem lookupNone_destroyNative {w : World} {p q : Nat}
    (hq : lookupWin w.windows q = none) :
    lookupWin (FlutterHostWindow.destroyNative w p).windows q = none := by
  show lookupWin (removeWin (FlutterHostWindow.destroyUnlink w.windows p) p) q = none
  exact lookupNone_remove (lookupNone_destroyUnlink hq)

theorem lookupNone_foldl_destroyNative {q : Nat} : ∀ {l : List Nat} {w : World},
    lookupWin w.windows q = none →
    lookupWin (l.foldl FlutterHostWindow.destroyNative w).windows q = none := by
  intro l
  induction l with
  | nil => intro w hq; exact hq
  | cons a t ih => intro w hq; exact ih (lookupNone_destroyNative hq)

theorem pumpLoop_inv {h : Nat} {L0 : List Nat} : ∀ {pending : List Nat} {w : World},
    LoopInv h L0 w pending →
    LoopInv h L0 (pending.foldl FlutterHostWindow.destroyNative w) [] ∧
    ∀ p ∈ pending,
      lookupWin (pending.foldl FlutterHostWindow.destroyNative w).windows p = none := by
  intro pending
  induction pending with
  | nil =>
    intro w inv
    exact ⟨inv, by intro p hp; simp at hp⟩
  | cons p rest ih =>
    intro w inv
    obtain ⟨inv', hpnone⟩ := destroyStep_inv inv
    obtain ⟨invF, hrest⟩ := ih inv'
    refine ⟨invF, ?_⟩
    intro x hx
    rcases List.mem_cons.mp hx with rfl | hx'
    · exact @lookupNone_foldl_destroyNative x rest
        (FlutterHostWindow.destroyNative w x) hpnone
    · exact hrest x hx'

theorem closeEntry_inv {w : World} {h : Nat} {e : HostWindow}
    (hwf : WF w) (he : lookupWin w.windows h = some e) :
    LoopInv h (dropPopups w.windows e.ownedWindows)
      (FlutterHostWindow.closeUnlinked w h)
      (takePopups w.windows e.ownedWindows) := by
  obtain ⟨hnodup, hown, hback, hfwd, hcount, hreg, hself⟩ := hwf
  have hhe : e.handle = h := lookupWin_handle he
  have hmem_e : e ∈ w.windows := lookupWin_mem he
  refine ⟨?_, ?_, ?_, ?_, ?_, ?_⟩
  · show (List.map HostWindow.handle
      (updateWin w.windows h (dropPopupsFrom w.windows))).Nodup
    rw [@handles_updateWin h (dropPopupsFrom w.windows) (fun _ => rfl) w.windows]
    exact hnodup
  · refine ⟨dropPopupsFrom w.windows e, ?_, rfl, ?_⟩
    · show lookupWin (updateWin w.windows h (dropPopupsFrom w.windows)) h = _
      rw [@lookupWin_update_self w.windows h (dropPopupsFrom w.windows)
        (fun _ => rfl), he]
      rfl
    · show e.numOwnedPopups = (takePopups w.windows e.ownedWindows).length
      rw [length_takePopups]
      exact hcount e hmem_e
  · refine (countPopups_congr fun x _ => ?_).trans (countPopups_dropPopups _ _)
    exact @isPopupAt_updateWin w.windows h x (dropPopupsFrom w.windows)
      (fun _ => rfl) (fun _ => rfl)
  · exact takePopups_nodup (hown e hmem_e)
  · intro p hp
    obtain ⟨hpmem, hppop⟩ := mem_takePopups.mp hp
    have hb := hback e hmem_e p hpmem
    rcases hlp : lookupWin w.windows p with _ | pe
    · rw [hlp] at hb; cases hb
    · rw [hlp] at hb
      simp only [Option.map_some'] at hb
      have hpeOwn : pe.ownerHandle = some h := by
        rw [Option.some.inj hb, hhe]
      have hpeArch : pe.archetype = WindowArchetype.popup := by
        have hpp := hppop
        unfold isPopupAt at hpp
        rw [hlp] at hpp
        exact of_decide_eq_true hpp
      have hph : p ≠ h := by
        intro hq
        rw [hq, he] at hlp
        have hpee : pe = e := (Option.some.inj hlp).symm
        subst hpee
        exact hself pe hmem_e (hpeOwn.trans (by rw [hhe]))
      refine ⟨hph, ⟨pe, ?_, hpeArch, hpeOwn⟩, ?_⟩
      · show lookupWin (updateWin w.windows h (dropPopupsFrom w.windows)) p = some pe
        rw [@lookupWin_update_ne w.windows h p (dropPopupsFrom w.windows)
          (fun _ => rfl) hph, hlp]
      · intro e' he' hpmem'
        obtain ⟨e0, he0, rfl⟩ := mem_updateWin.mp he'
        by_cases hc : e0.handle = h
        · have he0e : e0 = e := by
            have hlk := mem_handle_lookup hnodup he0
            rw [hc, he] at hlk
            exact (Option.some.inj hlk).symm
          subst he0e
          simp only [updFn, if_pos hc, dropPopupsFrom] at hpmem'
          have := (mem_dropPopups.mp hpmem').2
          rw [hppop] at this
          cases this
        · simp only [updFn, if_neg hc] at hpmem'
          have hb0 := hback e0 he0 p hpmem'
          rw [hlp] at hb0
          simp only [Option.map_some'] at hb0
          have : some h = some e0.handle := hpeOwn.symm.trans (Option.some.inj hb0)
          exact hc (Option.some.inj this).symm
  · intro e' he' hne
    obtain ⟨e0, he0, rfl⟩ := mem_updateWin.mp he'
    have hc : ¬ e0.handle = h := fun hq =>
      hne ((@updFn_handle h (dropPopupsFrom w.windows) (fun _ => rfl) e0).trans hq)
    have heq : updFn h (dropPopupsFrom w.windows) e0 = e0 := by
      simp [updFn, hc]
    rw [heq]
    rw [hcount e0 he0]
    refine countPopups_congr fun x _ => ?_
    exact (@isPopupAt_updateWin w.windows h x (dropPopupsFrom w.windows)
      (fun _ => rfl) (fun _ => rfl)).symm

/-- C5: the code does not satisfy the claim. On the concrete tree with
one regular window owning two popups, CloseOwnedPopups removes both
popup members from the owned set and posts a WM_CLOSE request for each,
but PostMessage only queues those requests, so the popup count of the
window is still 2 at the return statement and the returned difference
between the count before the operation and at the return statement is 0,
not the number of popups removed; the queued requests destroy the popups
only after the function has returned (after the pump both popups are
gone from the table). -/
theorem c5_close_owned_popups_returns_zero :
    countPopups exampleWorld3.windows ownerEnt3.ownedWindows = 2 ∧
    (FlutterHostWindow.CloseOwnedPopups exampleWorld3 1).1 = 0 ∧
    (FlutterHostWindow.CloseOwnedPopups exampleWorld3 1).2.2 = [2, 3] ∧
    (lookupWin (FlutterHostWindow.CloseOwnedPopups exampleWorld3 1).2.1.windows 1).map
      HostWindow.ownedWindows = some [] ∧
    (lookupWin (FlutterHostWindow.CloseOwnedPopups exampleWorld3 1).2.1.windows 1).map
      HostWindow.numOwnedPopups = some 2 ∧
    lookupWin (FlutterHostWindow.pumpPostedCloses
      (FlutterHostWindow.CloseOwnedPopups exampleWorld3 1).2.1
      (FlutterHostWindow.CloseOwnedPopups exampleWorld3 1).2.2).windows 2 = none ∧
    lookupWin (FlutterHostWindow.pumpPostedCloses
      (FlutterHostWindow.CloseOwnedPopups exampleWorld3 1).2.1
      (FlutterHostWindow.CloseOwnedPopups exampleWorld3 1).2.2).windows 3 = none := by
  decide

/-- C6 counterexample: in the state that CloseOwnedPopups produces after
its snapshot and erase phase and before the close requests are
processed, the popup count of the owner still reads two while its owned
set no longer has popup members; this state is observable (the destroy
handlers, the repaint condition of the close loop and any reentrant
query read it), so the count does not equal the popup membership at
every observable point during CloseOwnedPopups. -/
theorem c6_count_invariant_broken_mid_close_cex :
    countInvAll exampleWorld3 ∧
    (lookupWin exampleWorld3.windows 1).map HostWindow.numOwnedPopups = some 2 ∧
    ¬ countInvAll (FlutterHostWindow.closeUnlinked exampleWorld3 1) := by
  refine ⟨by decide, by decide, by decide⟩

/-- C6 amended: in a well formed window tree, the popup count of every
window equals the number of popup members of its owned set after every
completed destroy notification. CloseOwnedPopups breaks the equality:
its erase phase removes the popup members from the owned set while the
count is untouched, and because the posted WM_CLOSE requests are still
unprocessed at the return statement, the equality is still broken when
CloseOwnedPopups returns whenever the window had any owned popup; it
holds again once the message pump has processed every posted close
request. -/
theorem c6_popup_count_invariant_after_operations (w : World) (h : Nat)
    (hwf : WF w) :
    countInvAll (FlutterHostWindow.destroyNative w h) ∧
    countInvAll (FlutterHostWindow.pumpPostedCloses
      (FlutterHostWindow.CloseOwnedPopups w h).2.1
      (FlutterHostWindow.CloseOwnedPopups w h).2.2) ∧
    ∀ e, lookupWin w.windows h = some e → e.numOwnedPopups ≠ 0 →
      ¬ countInvAll (FlutterHostWindow.CloseOwnedPopups w h).2.1 := by
  have hwf2 := hwf
  obtain ⟨-, -, -, -, hcount, -, -⟩ := hwf2
  rcases he : lookupWin w.windows h with _ | e
  · have hred : FlutterHostWindow.CloseOwnedPopups w h = (0, w, []) := by
      unfold FlutterHostWindow.CloseOwnedPopups
      rw [he]
    rw [hred]
    refine ⟨countInvAll_destroyNative w h hwf, ?_, ?_⟩
    · show countInvAll (FlutterHostWindow.pumpPostedCloses w [])
      exact hcount
    · intro e1 he1 hne1
      exact Option.noConfusion he1
  · by_cases hz : e.numOwnedPopups = 0
    · have hred : FlutterHostWindow.CloseOwnedPopups w h = (0, w, []) := by
        unfold FlutterHostWindow.CloseOwnedPopups
        rw [he]
        dsimp only
        rw [if_pos hz]
      rw [hred]
      refine ⟨countInvAll_destroyNative w h hwf, ?_, ?_⟩
      · show countInvAll (FlutterHostWindow.pumpPostedCloses w [])
        exact hcount
      · intro e1 he1 hne1
        obtain rfl : e = e1 := Option.some.inj he1
        exact absurd hz hne1
    · have hentry := closeEntry_inv hwf he
      obtain ⟨invL, hqL⟩ := closeLoop_post (takePopups w.windows e.ownedWindows)
        (FlutterHostWindow.closeUnlinked w h) [] hentry (fun x hx => hx)
      simp only [List.nil_append] at hqL
      have hred : FlutterHostWindow.CloseOwnedPopups w h =
          (e.numOwnedPopups -
            (match lookupWin ((takePopups w.windows e.ownedWindows).foldl
                FlutterHostWindow.closeStep
                (FlutterHostWindow.closeUnlinked w h, [])).1.windows h with
              | some e2 => e2.numOwnedPopups
              | none => 0),
           ((takePopups w.windows e.ownedWindows).foldl FlutterHostWindow.closeStep
             (FlutterHostWindow.closeUnlinked w h, [])).1,
           ((takePopups w.windows e.ownedWindows).foldl FlutterHostWindow.closeStep
             (FlutterHostWindow.closeUnlinked w h, [])).2) := by
        unfold FlutterHostWindow.CloseOwnedPopups
        rw [he]
        dsimp only
        rw [if_neg hz]
      refine ⟨countInvAll_destroyNative w h hwf, ?_, ?_⟩
      · rw [hred]
        show countInvAll (FlutterHostWindow.pumpPostedCloses
          ((takePopups w.windows e.ownedWindows).foldl FlutterHostWindow.closeStep
            (FlutterHostWindow.closeUnlinked w h, [])).1
          ((takePopups w.windows e.ownedWindows).foldl FlutterHostWindow.closeStep
            (FlutterHostWindow.closeUnlinked w h, [])).2)
        rw [hqL]
        show countInvAll ((takePopups w.windows e.ownedWindows).foldl
          FlutterHostWindow.destroyNative
          ((takePopups w.windows e.ownedWindows).foldl FlutterHostWindow.closeStep
            (FlutterHostWindow.closeUnlinked w h, [])).1)
        obtain ⟨invF, -⟩ := pumpLoop_inv invL
        obtain ⟨hnodupF, ⟨selfF, hselfF, hL0F, hnumF⟩, hzeroF, -, -, hothersF⟩ := invF
        simp only [List.length_nil] at hnumF
        intro e' he'
        by_cases hc : e'.handle = h
        · have hlk := mem_handle_lookup hnodupF he'
          rw [hc, hselfF] at hlk
          obtain rfl : selfF = e' := Option.some.inj hlk
          rw [hL0F, hzeroF]
          exact hnumF
        · exact hothersF e' he' hc
      · intro e1 he1 hne1
        obtain rfl : e = e1 := Option.some.inj he1
        rw [hred]
        show ¬ countInvAll ((takePopups w.windows e.ownedWindows).foldl
          FlutterHostWindow.closeStep (FlutterHostWindow.closeUnlinked w h, [])).1
        obtain ⟨-, ⟨self2, hself2, hL02, hnum2⟩, hzero2, -, -, -⟩ := invL
        intro hcinv
        have heq2 := hcinv self2 (lookupWin_mem hself2)
        rw [hL02, hzero2] at heq2
        have hlen : self2.numOwnedPopups =
            (takePopups w.windows e.ownedWindows).length := hnum2
        rw [length_takePopups] at hlen
        have hcnte : e.numOwnedPopups = countPopups w.windows e.ownedWindows :=
          hcount e (lookupWin_mem he)
        omega

/-- Witness for C6 amended on the concrete world with two popups: the
well formedness hypothesis holds on it, the invariant holds again after
the message pump has drained the posted close requests, and it is indeed
broken at the return statement of CloseOwnedPopups. -/
theorem c6_popup_count_invariant_after_operations_witness :
    WF exampleWorld3 ∧
    countInvAll (FlutterHostWindow.pumpPostedCloses
      (FlutterHostWindow.CloseOwnedPopups exampleWorld3 1).2.1
      (FlutterHostWindow.CloseOwnedPopups exampleWorld3 1).2.2) ∧
    ¬ countInvAll (FlutterHostWindow.CloseOwnedPopups exampleWorld3 1).2.1 :=
  ⟨by decide,
    (c6_popup_count_invariant_after_operations exampleWorld3 1 (by decide)).2.1,
    (c6_popup_count_invariant_after_operations exampleWorld3 1 (by decide)).2.2
      ownerEnt3 (by decide) (by decide)⟩

end HostWindowing
